import Mathlib

/-!
# Shallow embedding of the path-tracer core

This file embeds the rendering core of the repository (raytracer.cpp,
objects.cpp, lights.cpp, materials.cpp, together with the data model in
raytracer.h / cyColor.h) into Lean 4 and proves properties of the
embedding.  C++ `float` arithmetic is modelled by `ℝ`; the few places
where IEEE special values decide a branch are modelled explicitly with
`Option` and documented at the definition.  Record types that live in
headers outside the repository snapshot (HitInfo defaults, SamplerInfo,
DirSampler::Info, the RNG) are modelled from the specification document
and are marked as such in their doc comments.
-/

namespace PathTracer

/-- 3-component float vector (cy::Vec3f). -/
structure Vec3 where
  x : ℝ
  y : ℝ
  z : ℝ

namespace Vec3

/-- The zero vector. -/
def zero : Vec3 := ⟨0, 0, 0⟩

instance : Add Vec3 := ⟨fun a b => ⟨a.x + b.x, a.y + b.y, a.z + b.z⟩⟩
instance : Sub Vec3 := ⟨fun a b => ⟨a.x - b.x, a.y - b.y, a.z - b.z⟩⟩
instance : Neg Vec3 := ⟨fun a => ⟨-a.x, -a.y, -a.z⟩⟩
instance : SMul ℝ Vec3 := ⟨fun s a => ⟨s * a.x, s * a.y, s * a.z⟩⟩

@[simp] theorem add_mk3 (a b : Vec3) : a + b = ⟨a.x + b.x, a.y + b.y, a.z + b.z⟩ := rfl
@[simp] theorem sub_mk3 (a b : Vec3) : a - b = ⟨a.x - b.x, a.y - b.y, a.z - b.z⟩ := rfl
@[simp] theorem neg_mk3 (a : Vec3) : -a = ⟨-a.x, -a.y, -a.z⟩ := rfl
@[simp] theorem smul_mk3 (s : ℝ) (a : Vec3) : s • a = ⟨s * a.x, s * a.y, s * a.z⟩ := rfl

/-- Dot product (cy::Vec3f::Dot). -/
def dot (a b : Vec3) : ℝ := a.x * b.x + a.y * b.y + a.z * b.z

/-- Squared length (cy::Vec3f::LengthSquared). -/
def lengthSq (a : Vec3) : ℝ := dot a a

/-- Length (cy::Vec3f::Length). -/
noncomputable def length (a : Vec3) : ℝ := Real.sqrt (lengthSq a)

/-- Normalized copy (cy::Vec3f::GetNormalized): the vector scaled by the
reciprocal of its length. -/
noncomputable def normalized (a : Vec3) : Vec3 := (1 / length a) • a

/-- cy::Vec3f::IsZero: all components are exactly zero. -/
def isZero (a : Vec3) : Prop := a = zero

end Vec3

/-- 2-component float vector (cy::Vec2d as used by the triangle test). -/
structure Vec2 where
  x : ℝ
  y : ℝ

namespace Vec2

instance : Sub Vec2 := ⟨fun a b => ⟨a.x - b.x, a.y - b.y⟩⟩

@[simp] theorem sub_mk2 (a b : Vec2) : a - b = ⟨a.x - b.x, a.y - b.y⟩ := rfl

/-- 2-D cross product (cy::Vec2d::Cross), a scalar. -/
def cross (a b : Vec2) : ℝ := a.x * b.y - a.y * b.x

end Vec2

/-- RGB float color (cy::Color, cyColor.h). -/
structure Color where
  r : ℝ
  g : ℝ
  b : ℝ

namespace Color

/-- Color3::Black(). -/
def black : Color := ⟨0, 0, 0⟩

/-- A gray color with all channels equal, for stating scenarios. -/
def gray (v : ℝ) : Color := ⟨v, v, v⟩

instance : Add Color := ⟨fun a b => ⟨a.r + b.r, a.g + b.g, a.b + b.b⟩⟩
instance : Mul Color := ⟨fun a b => ⟨a.r * b.r, a.g * b.g, a.b * b.b⟩⟩
instance : SMul ℝ Color := ⟨fun s a => ⟨s * a.r, s * a.g, s * a.b⟩⟩

@[simp] theorem add_rgb (a b : Color) : a + b = ⟨a.r + b.r, a.g + b.g, a.b + b.b⟩ := rfl
@[simp] theorem mul_rgb (a b : Color) : a * b = ⟨a.r * b.r, a.g * b.g, a.b * b.b⟩ := rfl
@[simp] theorem smul_rgb (s : ℝ) (a : Color) : s • a = ⟨s * a.r, s * a.g, s * a.b⟩ := rfl

/-- Division of a color by a float scalar (cy::Color operator/). -/
noncomputable def divR (c : Color) (s : ℝ) : Color := ⟨c.r / s, c.g / s, c.b / s⟩

/-- Color3::IsBlack(): all components exactly zero. -/
def IsBlack (c : Color) : Prop := c.r = 0 ∧ c.g = 0 ∧ c.b = 0

/-- Color3::Linear2sRGB(), per channel:
`cl < 0.0031308 ? cl*12.92 : pow(cl,0.41666)*1.055 - 0.055`. -/
noncomputable def linear2sRGB (c : Color) : Color :=
  let f : ℝ → ℝ := fun cl =>
    if cl < 0.0031308 then cl * 12.92 else Real.rpow cl 0.41666 * 1.055 - 0.055
  ⟨f c.r, f c.g, f c.b⟩

end Color

/-- 8-bit RGB color (cy::Color24). -/
structure Color24 where
  r : ℕ
  g : ℕ
  b : ℕ
deriving DecidableEq

/-- C `int(x)` cast of a float: truncation toward zero. -/
noncomputable def truncInt (x : ℝ) : ℤ := if 0 ≤ x then ⌊x⌋ else -⌊-x⌋

/-- Color24::ClampInt: clamp an int to [0,255]. -/
def clampInt (v : ℤ) : ℕ := if v < 0 then 0 else if v > 255 then 255 else v.toNat

/-- Color24::ToByte: `ClampInt(int(r*255 + 0.5))`. -/
noncomputable def toByte (x : ℝ) : ℕ := clampInt (truncInt (x * 255 + 0.5))

/-- Conversion Color24(Color3): per-channel ToByte. -/
noncomputable def Color.toColor24 (c : Color) : Color24 := ⟨toByte c.r, toByte c.g, toByte c.b⟩

/-- BIGFLOAT, the "effectively infinite" hit distance used by the scene
headers of the cyCodeBase framework (1.0e30f). -/
def BIGFLOAT : ℝ := 1.0e30

/-- The `hitSide` selector (HIT_FRONT / HIT_BACK / HIT_FRONT_AND_BACK). -/
inductive HitSide where
  | FRONT
  | BACK
  | FRONT_AND_BACK
deriving DecidableEq

/-- Hit record (HitInfo).  Lights and nodes are referenced by numeric
identity standing in for the C++ pointers. -/
structure HitInfo where
  z : ℝ
  p : Vec3
  n : Vec3
  gn : Vec3
  uvw : Vec3
  front : Bool
  isLight : Bool
  light : Option ℕ
  node : Option ℕ

/-- Modelled from the spec: HitInfo's default-constructed / `Init()` state
has hit distance z = +∞ (BIGFLOAT) and both the light and node
references null (spec §3); the remaining geometric fields start zeroed
and the face flag true. -/
def HitInfo.init : HitInfo :=
  { z := BIGFLOAT, p := Vec3.zero, n := Vec3.zero, gn := Vec3.zero,
    uvw := Vec3.zero, front := true, isLight := false, light := none, node := none }

/-! ## Primitive intersections (objects.cpp) -/

/-- C `atan2(y,x)`. -/
noncomputable def atan2f (y x : ℝ) : ℝ :=
  if 0 < x then Real.arctan (y / x)
  else if x < 0 then
    (if 0 ≤ y then Real.arctan (y / x) + Real.pi else Real.arctan (y / x) - Real.pi)
  else (if 0 < y then Real.pi / 2 else if y < 0 then -(Real.pi / 2) else 0)

/-- Rays: origin `p` and (unnormalized) direction `dir`. -/
structure Ray where
  p : Vec3
  dir : Vec3

namespace Sphere

/-- Sphere::IntersectRay (objects.cpp lines 6-52): unit sphere at the
origin of the local frame.  Returns the C++ boolean together with the
(possibly updated) HitInfo that the C++ code mutates in place. -/
noncomputable def IntersectRay (ray : Ray) (hInfo : HitInfo) (hitSide : HitSide) :
    Bool × HitInfo :=
  let bias : ℝ := 0.002
  let a := ray.dir.dot ray.dir
  let b := 2 * ray.dir.dot ray.p
  let c := ray.p.dot ray.p - 1
  let delta := b * b - 4 * a * c
  if delta < 0 then (false, hInfo)
  else
    let t1 := (-b - Real.sqrt delta) / (2 * a)
    let t2 := (-b + Real.sqrt delta) / (2 * a)
    -- the C++ mutates `t` and `front`; the two possible final values are
    -- (t1, true) and, after the bias fallback, (t2, false)
    let tf : Option (ℝ × Bool) :=
      if t1 ≤ bias then
        (if hitSide = HitSide.BACK ∨ hitSide = HitSide.FRONT_AND_BACK then
          (if t2 ≤ bias then none else some (t2, false))
        else none)
      else some (t1, true)
    match tf with
    | none => (false, hInfo)
    | some (t, front) =>
      let p := ray.p + t • ray.dir
      if |p.dot ray.dir| ≤ bias then (false, hInfo)
      else if t < hInfo.z then
        (true,
          { hInfo with
            z := t, front := front, p := p, n := p, gn := p,
            uvw := ⟨atan2f p.y p.x / (2 * Real.pi),
                    Real.arcsin p.z / Real.pi + 0.5, 0.5⟩ })
      else (false, hInfo)

end Sphere

namespace Plane

/-- Plane::IntersectRay (objects.cpp lines 54-78): unit square in the
plane z = 0 of the local frame. -/
noncomputable def IntersectRay (ray : Ray) (hInfo : HitInfo) (hitSide : HitSide) :
    Bool × HitInfo :=
  let bias : ℝ := 0.002
  if ray.dir.z > 0 ∧ hitSide = HitSide.FRONT then (false, hInfo)
  else
    let t := -ray.p.z / ray.dir.z
    if t ≤ bias then (false, hInfo)
    else if t ≥ hInfo.z then (false, hInfo)
    else
      let x := ray.p + t • ray.dir
      if x.x < -1 ∨ x.x > 1 ∨ x.y < -1 ∨ x.y > 1 then (false, hInfo)
      else
        (true,
          { hInfo with
            z := t, front := decide (ray.dir.z < 0), p := x,
            n := ⟨0, 0, 1⟩, gn := ⟨0, 0, 1⟩,
            uvw := (1 / 2 : ℝ) • (x + ⟨1, 1, 1⟩) })

end Plane

namespace TriObj

/-- TriObj::IntersectTriangle (objects.cpp lines 84-157).  The mesh data
for the face (its three vertices and the interpolation helpers
`GetNormal`, `GetTexCoord`, which live in the external cyTriMesh code)
are passed in as parameters. -/
noncomputable def IntersectTriangle (v0 v1 v2 : Vec3)
    (getNormal getTexCoord : Vec3 → Vec3)
    (ray : Ray) (hInfo : HitInfo) (hitSide : HitSide) : Bool × HitInfo :=
  let bias : ℝ := 0.00002
  let e1 := v1 - v0
  let e2 := v2 - v0
  -- cy::Vec3f::Cross of the two edge vectors
  let nStar : Vec3 := ⟨e1.y * e2.z - e1.z * e2.y,
                       e1.z * e2.x - e1.x * e2.z,
                       e1.x * e2.y - e1.y * e2.x⟩
  let cosTheta := nStar.dot ray.dir
  if |cosTheta| < bias then (false, hInfo)
  else if cosTheta > bias ∧ hitSide = HitSide.FRONT then (false, hInfo)
  else
    let t := (v0.dot nStar - ray.p.dot nStar) / cosTheta
    if t ≤ bias then (false, hInfo)
    else if t ≥ hInfo.z then (false, hInfo)
    else
      let x := ray.p + t • ray.dir
      -- collapse the triangle to 2d based on the largest normal component
      let coords : Vec2 × Vec2 × Vec2 × Vec2 :=
        if |nStar.x| ≥ |nStar.y| ∧ |nStar.x| ≥ |nStar.z| then
          (⟨v0.y, v0.z⟩, ⟨v1.y, v1.z⟩, ⟨v2.y, v2.z⟩, ⟨x.y, x.z⟩)
        else if |nStar.y| ≥ |nStar.x| ∧ |nStar.y| ≥ |nStar.z| then
          (⟨v0.x, v0.z⟩, ⟨v1.x, v1.z⟩, ⟨v2.x, v2.z⟩, ⟨x.x, x.z⟩)
        else
          (⟨v0.x, v0.y⟩, ⟨v1.x, v1.y⟩, ⟨v2.x, v2.y⟩, ⟨x.x, x.y⟩)
      let v02d := coords.1
      let v12d := coords.2.1
      let v22d := coords.2.2.1
      let x2d := coords.2.2.2
      let area0 := (v12d - v02d).cross (x2d - v02d)
      let area1 := (v22d - v12d).cross (x2d - v12d)
      let area2 := (v02d - v22d).cross (x2d - v22d)
      if ¬(((area0 ≥ 0) = (area1 ≥ 0)) ∧ ((area1 ≥ 0) = (area2 ≥ 0))) then (false, hInfo)
      else
        let areaTotal := (v12d - v02d).cross (v22d - v02d)
        let b0 := |area1 / areaTotal|
        let b1 := |area2 / areaTotal|
        let b2 := |area0 / areaTotal|
        (true,
          { hInfo with
            z := t, front := decide (cosTheta ≤ -bias), p := x,
            n := getNormal ⟨b0, b1, b2⟩,
            gn := nStar.normalized,
            uvw := getTexCoord ⟨b0, b1, b2⟩ })

end TriObj

/-! ## Case lemmas for the primitive intersectors -/

/-- A final reject-or-accept step of an intersector: either the record is
returned unchanged with `false`, or the accepted record (with a strictly
smaller z) is returned with `true`. -/
theorem accept_or_reject (h : HitInfo) (c : Prop) [Decidable c] (acc : HitInfo)
    (hlt : acc.z < h.z) :
    (if c then ((false : Bool), h) else (true, acc)) = (false, h) ∨
    ((if c then ((false : Bool), h) else (true, acc)).1 = true ∧
      (if c then ((false : Bool), h) else (true, acc)).2.z < h.z) := by
  split
  · exact Or.inl rfl
  · exact Or.inr ⟨rfl, hlt⟩

/-- Sphere::IntersectRay either leaves the record untouched or accepts a
strictly closer hit. -/
theorem sphere_intersect_cases (ray : Ray) (h : HitInfo) (side : HitSide) :
    Sphere.IntersectRay ray h side = (false, h) ∨
    ((Sphere.IntersectRay ray h side).1 = true ∧
      (Sphere.IntersectRay ray h side).2.z < h.z) := by
  unfold Sphere.IntersectRay
  dsimp only
  split
  · exact Or.inl rfl
  · split
    · exact Or.inl rfl
    · split
      · exact Or.inl rfl
      · split
        · next hlt => exact Or.inr ⟨rfl, by simpa using hlt⟩
        · exact Or.inl rfl

/-- Plane::IntersectRay either leaves the record untouched or accepts a
strictly closer hit. -/
theorem plane_intersect_cases (ray : Ray) (h : HitInfo) (side : HitSide) :
    Plane.IntersectRay ray h side = (false, h) ∨
    ((Plane.IntersectRay ray h side).1 = true ∧
      (Plane.IntersectRay ray h side).2.z < h.z) := by
  unfold Plane.IntersectRay
  dsimp only
  split
  · exact Or.inl rfl
  · split
    · exact Or.inl rfl
    · split
      · exact Or.inl rfl
      · next hz =>
        split
        · exact Or.inl rfl
        · right
          constructor
          · simp
          · simpa using lt_of_not_ge hz

/-- TriObj::IntersectTriangle either leaves the record untouched or
accepts a strictly closer hit. -/
theorem tri_intersect_cases (v0 v1 v2 : Vec3) (gN gT : Vec3 → Vec3)
    (ray : Ray) (h : HitInfo) (side : HitSide) :
    TriObj.IntersectTriangle v0 v1 v2 gN gT ray h side = (false, h) ∨
    ((TriObj.IntersectTriangle v0 v1 v2 gN gT ray h side).1 = true ∧
      (TriObj.IntersectTriangle v0 v1 v2 gN gT ray h side).2.z < h.z) := by
  unfold TriObj.IntersectTriangle
  dsimp only
  split
  · exact Or.inl rfl
  · split
    · exact Or.inl rfl
    · split
      · exact Or.inl rfl
      · split
        · exact Or.inl rfl
        · next hz =>
          exact accept_or_reject h _ _ (by simpa using lt_of_not_ge hz)

/-- C6: for every primitive intersection routine (unit sphere, unit
plane, mesh triangle) and every incoming HitInfo, a call either returns
false and leaves the whole record unchanged, or returns true and assigns
a strictly smaller z (so other hit fields are rewritten only when z
decreases); hence across any sequence of such intersection tests sharing
one HitInfo, the z field is monotonically non-increasing. -/
theorem C6_hitinfo_z_monotone :
    (∀ ray h side,
      (Sphere.IntersectRay ray h side = (false, h) ∨
        ((Sphere.IntersectRay ray h side).1 = true ∧
          (Sphere.IntersectRay ray h side).2.z < h.z))) ∧
    (∀ ray h side,
      (Plane.IntersectRay ray h side = (false, h) ∨
        ((Plane.IntersectRay ray h side).1 = true ∧
          (Plane.IntersectRay ray h side).2.z < h.z))) ∧
    (∀ v0 v1 v2 gN gT ray h side,
      (TriObj.IntersectTriangle v0 v1 v2 gN gT ray h side = (false, h) ∨
        ((TriObj.IntersectTriangle v0 v1 v2 gN gT ray h side).1 = true ∧
          (TriObj.IntersectTriangle v0 v1 v2 gN gT ray h side).2.z < h.z))) ∧
    (∀ tests : List (HitInfo → Bool × HitInfo),
      (∀ t ∈ tests,
        (∃ ray side, t = fun h => Sphere.IntersectRay ray h side) ∨
        (∃ ray side, t = fun h => Plane.IntersectRay ray h side) ∨
        (∃ v0 v1 v2 gN gT ray side,
          t = fun h => TriObj.IntersectTriangle v0 v1 v2 gN gT ray h side)) →
      ∀ h : HitInfo,
        (tests.foldl (fun (h : HitInfo) (t : HitInfo → Bool × HitInfo) => (t h).2) h).z
          ≤ h.z) := by
  refine ⟨sphere_intersect_cases, plane_intersect_cases, tri_intersect_cases, ?_⟩
  have main : ∀ ts : List (HitInfo → Bool × HitInfo),
      (∀ t ∈ ts, ∀ h : HitInfo, ((t h).2).z ≤ h.z) →
      ∀ h : HitInfo,
        (ts.foldl (fun (h : HitInfo) (t : HitInfo → Bool × HitInfo) => (t h).2) h).z
          ≤ h.z := by
    intro ts
    induction ts with
    | nil => intro _ h; simp
    | cons t ts ih =>
      intro hstep h
      have h1 : ((t h).2).z ≤ h.z := hstep t (List.mem_cons_self t ts) h
      have h2 := ih (fun u hu => hstep u (List.mem_cons_of_mem t hu)) ((t h).2)
      simpa using le_trans h2 h1
  intro tests htests
  refine main tests ?_
  intro t ht h
  rcases htests t ht with ⟨ray, side, rfl⟩ | ⟨ray, side, rfl⟩ |
    ⟨v0, v1, v2, gN, gT, ray, side, rfl⟩
  · rcases sphere_intersect_cases ray h side with heq | ⟨-, hlt⟩
    · show (Sphere.IntersectRay ray h side).2.z ≤ h.z
      rw [heq]
    · exact le_of_lt hlt
  · rcases plane_intersect_cases ray h side with heq | ⟨-, hlt⟩
    · show (Plane.IntersectRay ray h side).2.z ≤ h.z
      rw [heq]
    · exact le_of_lt hlt
  · rcases tri_intersect_cases v0 v1 v2 gN gT ray h side with heq | ⟨-, hlt⟩
    · show (TriObj.IntersectTriangle v0 v1 v2 gN gT ray h side).2.z ≤ h.z
      rw [heq]
    · exact le_of_lt hlt

/-- C6 witness: the sequence consisting of one concrete plane test keeps
z non-increasing from its initial BIGFLOAT value. -/
theorem C6_hitinfo_z_monotone_witness :
    ([fun h => Plane.IntersectRay ⟨⟨0, 0, 1⟩, ⟨0, 0, -1⟩⟩ h
        HitSide.FRONT_AND_BACK].foldl
      (fun (h : HitInfo) (t : HitInfo → Bool × HitInfo) => (t h).2) HitInfo.init).z ≤
      HitInfo.init.z :=
  C6_hitinfo_z_monotone.2.2.2
    [fun h => Plane.IntersectRay ⟨⟨0, 0, 1⟩, ⟨0, 0, -1⟩⟩ h HitSide.FRONT_AND_BACK]
    (by
      intro t ht
      simp only [List.mem_singleton] at ht
      subst ht
      exact Or.inr (Or.inl ⟨⟨⟨0, 0, 1⟩, ⟨0, 0, -1⟩⟩, HitSide.FRONT_AND_BACK, rfl⟩))
    HitInfo.init

/-! ## C5: there is no |d.z| threshold in Plane::IntersectRay -/

/-- C5 counterexample: a ray whose direction has |d.z| = 1/1000 < ε = 2e-3
is *accepted* by Plane::IntersectRay (it returns true and rewrites the
record), refuting the claim that every ray with |d.z| < ε misses. -/
theorem C5_counterexample :
    |(Ray.mk ⟨0, 0, 1⟩ ⟨0, 0, -1/1000⟩).dir.z| < 0.002 ∧
    (Plane.IntersectRay (Ray.mk ⟨0, 0, 1⟩ ⟨0, 0, -1/1000⟩) HitInfo.init
      HitSide.FRONT_AND_BACK).1 = true ∧
    (Plane.IntersectRay (Ray.mk ⟨0, 0, 1⟩ ⟨0, 0, -1/1000⟩) HitInfo.init
      HitSide.FRONT_AND_BACK).2 ≠ HitInfo.init := by
  refine ⟨by norm_num [abs_lt], ?_, ?_⟩
  · unfold Plane.IntersectRay
    norm_num [HitInfo.init, BIGFLOAT, Vec3.dot]
  · unfold Plane.IntersectRay
    norm_num [HitInfo.init, BIGFLOAT, Vec3.dot]

/-- C5 amended: Plane::IntersectRay applies no threshold to the ray
direction's z component.  For every ray with d.z ≠ 0 (the exact-zero case
is decided by IEEE ∞/NaN propagation and is outside this real-valued
embedding), the routine misses — returning false with the HitInfo record
unchanged — exactly when the front-face rejection applies, or the ray
parameter t = -p.z/d.z is ≤ the bias 2e-3, or t does not improve the
stored z, or the intersection point falls outside the unit square;
grazing rays with 0 < |d.z| < 2e-3 can produce accepted hits. -/
theorem C5_plane_no_grazing_guard (ray : Ray) (h : HitInfo) (side : HitSide)
    (_hdz : ray.dir.z ≠ 0) :
    Plane.IntersectRay ray h side = (false, h) ↔
      ((ray.dir.z > 0 ∧ side = HitSide.FRONT) ∨
        -ray.p.z / ray.dir.z ≤ 0.002 ∨
        -ray.p.z / ray.dir.z ≥ h.z ∨
        (ray.p + (-ray.p.z / ray.dir.z) • ray.dir).x < -1 ∨
        (ray.p + (-ray.p.z / ray.dir.z) • ray.dir).x > 1 ∨
        (ray.p + (-ray.p.z / ray.dir.z) • ray.dir).y < -1 ∨
        (ray.p + (-ray.p.z / ray.dir.z) • ray.dir).y > 1) := by
  clear _hdz
  unfold Plane.IntersectRay
  dsimp only
  split
  · next hc => simp only [eq_self_iff_true, true_iff]; exact Or.inl hc
  · next hc =>
    split
    · next h1 => simp only [eq_self_iff_true, true_iff]; exact Or.inr (Or.inl h1)
    · next h1 =>
      split
      · next h2 => simp only [eq_self_iff_true, true_iff]; exact Or.inr (Or.inr (Or.inl h2))
      · next h2 =>
        split
        · next h3 =>
          simp only [eq_self_iff_true, true_iff]
          exact Or.inr (Or.inr (Or.inr h3))
        · next h3 =>
          constructor
          · intro heq
            exact absurd (congrArg Prod.fst heq) (by simp)
          · intro hcases
            rcases hcases with hc1 | hc2 | hc3 | hc4
            · exact absurd hc1 hc
            · exact absurd hc2 h1
            · exact absurd hc3 h2
            · exact absurd hc4 (by push_neg at h3 ⊢; exact h3)

/-- C5 witness: the amended characterization applied to the concrete
grazing ray of the counterexample. -/
theorem C5_plane_no_grazing_guard_witness :
    ((Ray.mk ⟨0, 0, 1⟩ ⟨0, 0, -1/1000⟩).dir.z ≠ 0) ∧
    (Plane.IntersectRay (Ray.mk ⟨0, 0, 1⟩ ⟨0, 0, -1/1000⟩) HitInfo.init
        HitSide.FRONT_AND_BACK = (false, HitInfo.init) ↔
      (((Ray.mk ⟨0, 0, 1⟩ ⟨0, 0, -1/1000⟩).dir.z > 0 ∧
          HitSide.FRONT_AND_BACK = HitSide.FRONT) ∨
        -(Ray.mk ⟨0, 0, 1⟩ ⟨0, 0, -1/1000⟩).p.z /
            (Ray.mk ⟨0, 0, 1⟩ ⟨0, 0, -1/1000⟩).dir.z ≤ 0.002 ∨
        -(Ray.mk ⟨0, 0, 1⟩ ⟨0, 0, -1/1000⟩).p.z /
            (Ray.mk ⟨0, 0, 1⟩ ⟨0, 0, -1/1000⟩).dir.z ≥ HitInfo.init.z ∨
        ((Ray.mk ⟨0, 0, 1⟩ ⟨0, 0, -1/1000⟩).p +
            (-(Ray.mk ⟨0, 0, 1⟩ ⟨0, 0, -1/1000⟩).p.z /
              (Ray.mk ⟨0, 0, 1⟩ ⟨0, 0, -1/1000⟩).dir.z) •
              (Ray.mk ⟨0, 0, 1⟩ ⟨0, 0, -1/1000⟩).dir).x < -1 ∨
        ((Ray.mk ⟨0, 0, 1⟩ ⟨0, 0, -1/1000⟩).p +
            (-(Ray.mk ⟨0, 0, 1⟩ ⟨0, 0, -1/1000⟩).p.z /
              (Ray.mk ⟨0, 0, 1⟩ ⟨0, 0, -1/1000⟩).dir.z) •
              (Ray.mk ⟨0, 0, 1⟩ ⟨0, 0, -1/1000⟩).dir).x > 1 ∨
        ((Ray.mk ⟨0, 0, 1⟩ ⟨0, 0, -1/1000⟩).p +
            (-(Ray.mk ⟨0, 0, 1⟩ ⟨0, 0, -1/1000⟩).p.z /
              (Ray.mk ⟨0, 0, 1⟩ ⟨0, 0, -1/1000⟩).dir.z) •
              (Ray.mk ⟨0, 0, 1⟩ ⟨0, 0, -1/1000⟩).dir).y < -1 ∨
        ((Ray.mk ⟨0, 0, 1⟩ ⟨0, 0, -1/1000⟩).p +
            (-(Ray.mk ⟨0, 0, 1⟩ ⟨0, 0, -1/1000⟩).p.z /
              (Ray.mk ⟨0, 0, 1⟩ ⟨0, 0, -1/1000⟩).dir.z) •
              (Ray.mk ⟨0, 0, 1⟩ ⟨0, 0, -1/1000⟩).dir).y > 1)) :=
  ⟨by norm_num,
    C5_plane_no_grazing_guard (Ray.mk ⟨0, 0, 1⟩ ⟨0, 0, -1/1000⟩) HitInfo.init
      HitSide.FRONT_AND_BACK (by norm_num)⟩

/-! ## Lights (lights.cpp) -/

/-- DirSampler lobe tags. -/
inductive Lobe where
  | DIFFUSE
  | SPECULAR
  | TRANSMISSION
  | NONE
deriving DecidableEq

/-- Modelled from the spec: DirSampler::Info — PDF of the chosen
direction, multiplicative throughput, and the lobe tag (spec §3).  The
record itself is declared in a header outside the snapshot. -/
structure DInfo where
  prob : ℝ
  mult : Color
  lobe : Lobe

/-- Modelled from the spec: DirSampler::Info::SetVoid sets prob = 0,
mult = black, lobe = NONE (spec §3). -/
def DInfo.void : DInfo := ⟨0, Color.black, Lobe.NONE⟩

namespace PointLight

/-- PointLight::GenerateSample (lights.cpp lines 56-77).  The shading
point `P` comes from the SamplerInfo; the two uniform draws are the two
`RandomFloat()` calls in source order; `ortho` is the external
cy::Vec3f::GetOrthonormals helper; `si` is the in-out Info record. -/
noncomputable def GenerateSample (ortho : Vec3 → Vec3 × Vec3)
    (position : Vec3) (size : ℝ) (intensity : Color)
    (P : Vec3) (rand1 rand2 : ℝ) (si : DInfo) : Bool × Vec3 × DInfo :=
  let diskNorm := position - P
  let radius := Real.sqrt (diskNorm.lengthSq - size * size) * size / diskNorm.length
  let sampleRadius := Real.sqrt rand1 * size
  let theta := rand2 * (2 * Real.pi)
  let xOff := sampleRadius * Real.cos theta
  let yOff := sampleRadius * Real.sin theta
  let uv := ortho (position - P).normalized
  let sampPoint := position + xOff • uv.1 + yOff • uv.2
  let dir := sampPoint - P
  (true, dir,
    { si with prob := 1 / (radius * radius * Real.pi),
              mult := (1 / dir.lengthSq) • intensity })

end PointLight

namespace SpotLight

/-- SpotLight::GenerateSample (lights.cpp lines 123-151).  Arguments as
in `PointLight.GenerateSample`, plus the cone axis `direction` and the
half-angle `angle`. -/
noncomputable def GenerateSample (ortho : Vec3 → Vec3 × Vec3)
    (position direction : Vec3) (angle size : ℝ) (intensity : Color)
    (P : Vec3) (rand1 rand2 : ℝ) (si : DInfo) : Bool × Vec3 × DInfo :=
  let pDir := (P - position).normalized
  if pDir.dot direction.normalized < Real.cos angle then
    -- this point lies without the cone
    (false, Vec3.zero, { si with mult := Color.black, prob := 0 })
  else
    let radius := Real.sin angle * size
    let sampleRadius := Real.sqrt rand1 * radius
    let theta := rand2 * (2 * Real.pi)
    let xOff := sampleRadius * Real.cos theta
    let yOff := sampleRadius * Real.sin theta
    let uv := ortho (position - P).normalized
    let sampPoint := position + xOff • uv.1 + yOff • uv.2
    let dir := sampPoint - P
    (true, dir,
      { si with prob := 1 / (radius * radius * Real.pi),
                mult := (1 / dir.lengthSq) • intensity })

end SpotLight

/-- C4 counterexample: for a spot light of size 2 and half-angle π/2 and
a shading point on the cone axis, SpotLight::GenerateSample returns
prob = 1/(4π) — the point-light formula with effective radius
size·sin α = 2 — whereas the claimed value 1/(π·sin²α) is 1/π. -/
theorem C4_counterexample :
    (SpotLight.GenerateSample (fun _ => (⟨1, 0, 0⟩, ⟨0, 1, 0⟩))
        ⟨0, 0, 0⟩ ⟨0, 0, -1⟩ (Real.pi / 2) 2 (Color.gray 1)
        ⟨0, 0, -1⟩ 0 0 DInfo.void).2.2.prob = 1 / (4 * Real.pi) ∧
    (1 : ℝ) / (4 * Real.pi) ≠ 1 / (Real.pi * Real.sin (Real.pi / 2) ^ 2) := by
  constructor
  · unfold SpotLight.GenerateSample
    rw [if_neg]
    · norm_num
    · push_neg
      norm_num [Vec3.normalized, Vec3.length, Vec3.lengthSq, Vec3.dot, Vec3.zero,
        Real.cos_pi_div_two]
  · rw [Real.sin_pi_div_two]
    have hpi := Real.pi_pos
    intro heq
    rw [one_div, one_div, inv_inj] at heq
    nlinarith

/-- C4 amended: for every shading point inside the spot light's cone,
SpotLight::GenerateSample uniformly samples a disk of radius
R = size·sin α around the light position (sample radius √u·R) and sets
prob and mult as the point light does with effective radius R = size·sin α:
prob = 1/(π·(size·sin α)²) and mult = intensity/‖dir‖². -/
theorem C4_spotlight_sample (ortho : Vec3 → Vec3 × Vec3)
    (position direction : Vec3) (angle size : ℝ) (intensity : Color)
    (P : Vec3) (rand1 rand2 : ℝ) (si : DInfo)
    (hin : ¬((P - position).normalized.dot direction.normalized < Real.cos angle)) :
    SpotLight.GenerateSample ortho position direction angle size intensity
        P rand1 rand2 si =
      (true,
        (position +
            (Real.sqrt rand1 * (Real.sin angle * size) *
              Real.cos (rand2 * (2 * Real.pi))) • (ortho (position - P).normalized).1 +
            (Real.sqrt rand1 * (Real.sin angle * size) *
              Real.sin (rand2 * (2 * Real.pi))) • (ortho (position - P).normalized).2) - P,
        { si with
          prob := 1 / ((Real.sin angle * size) * (Real.sin angle * size) * Real.pi),
          mult := (1 / (((position +
            (Real.sqrt rand1 * (Real.sin angle * size) *
              Real.cos (rand2 * (2 * Real.pi))) • (ortho (position - P).normalized).1 +
            (Real.sqrt rand1 * (Real.sin angle * size) *
              Real.sin (rand2 * (2 * Real.pi))) • (ortho (position - P).normalized).2) -
              P).lengthSq)) • intensity }) := by
  unfold SpotLight.GenerateSample
  rw [if_neg hin]

/-- C4 witness: the amended statement applied to the concrete on-axis
configuration of the counterexample. -/
theorem C4_spotlight_sample_witness :
    (¬(((⟨0, 0, -1⟩ : Vec3) - ⟨0, 0, 0⟩).normalized.dot
        (⟨0, 0, -1⟩ : Vec3).normalized < Real.cos (Real.pi / 2))) ∧
    SpotLight.GenerateSample (fun _ => (⟨1, 0, 0⟩, ⟨0, 1, 0⟩))
        ⟨0, 0, 0⟩ ⟨0, 0, -1⟩ (Real.pi / 2) 2 (Color.gray 1)
        ⟨0, 0, -1⟩ 0 0 DInfo.void =
      (true,
        ((⟨0, 0, 0⟩ : Vec3) +
            (Real.sqrt 0 * (Real.sin (Real.pi / 2) * 2) *
              Real.cos (0 * (2 * Real.pi))) •
                ((fun (_ : Vec3) => ((⟨1, 0, 0⟩ : Vec3), (⟨0, 1, 0⟩ : Vec3)))
                  (((⟨0, 0, 0⟩ : Vec3) - ⟨0, 0, -1⟩).normalized)).1 +
            (Real.sqrt 0 * (Real.sin (Real.pi / 2) * 2) *
              Real.sin (0 * (2 * Real.pi))) •
                ((fun (_ : Vec3) => ((⟨1, 0, 0⟩ : Vec3), (⟨0, 1, 0⟩ : Vec3)))
                  (((⟨0, 0, 0⟩ : Vec3) - ⟨0, 0, -1⟩).normalized)).2) - ⟨0, 0, -1⟩,
        { DInfo.void with
          prob := 1 / ((Real.sin (Real.pi / 2) * 2) * (Real.sin (Real.pi / 2) * 2) *
            Real.pi),
          mult := (1 / (((((⟨0, 0, 0⟩ : Vec3) +
            (Real.sqrt 0 * (Real.sin (Real.pi / 2) * 2) *
              Real.cos (0 * (2 * Real.pi))) •
                ((fun (_ : Vec3) => ((⟨1, 0, 0⟩ : Vec3), (⟨0, 1, 0⟩ : Vec3)))
                  (((⟨0, 0, 0⟩ : Vec3) - ⟨0, 0, -1⟩).normalized)).1 +
            (Real.sqrt 0 * (Real.sin (Real.pi / 2) * 2) *
              Real.sin (0 * (2 * Real.pi))) •
                ((fun (_ : Vec3) => ((⟨1, 0, 0⟩ : Vec3), (⟨0, 1, 0⟩ : Vec3)))
                  (((⟨0, 0, 0⟩ : Vec3) - ⟨0, 0, -1⟩).normalized)).2) - ⟨0, 0, -1⟩)).lengthSq)) •
            Color.gray 1 }) :=
  ⟨by
    push_neg
    norm_num [Vec3.normalized, Vec3.length, Vec3.lengthSq, Vec3.dot, Vec3.zero,
      Real.cos_pi_div_two],
    C4_spotlight_sample (fun _ => (⟨1, 0, 0⟩, ⟨0, 1, 0⟩))
      ⟨0, 0, 0⟩ ⟨0, 0, -1⟩ (Real.pi / 2) 2 (Color.gray 1) ⟨0, 0, -1⟩ 0 0 DInfo.void
      (by
        push_neg
        norm_num [Vec3.normalized, Vec3.length, Vec3.lengthSq, Vec3.dot, Vec3.zero,
          Real.cos_pi_div_two])⟩

/-! ## Emission NaN handling (materials.cpp)

IEEE NaN has no counterpart in `ℝ`; for the two emission fragments of
MtlBlinn we model each float channel as `Option ℝ`, with `none`
standing for NaN.  Addition propagates NaN; a `==`-comparison against 0
is false for NaN, which is what cy::Color::IsBlack compiles to. -/

/-- A float channel: `none` models IEEE NaN. -/
def NanF : Type := Option ℝ

/-- NaN-propagating addition of two float channels. -/
def NanF.add (a b : NanF) : NanF :=
  match a, b with
  | some x, some y => some (x + y)
  | _, _ => none

/-- An RGB color whose channels may be NaN. -/
structure NColor where
  r : NanF
  g : NanF
  b : NanF

/-- Black with no NaN channels. -/
def NColor.black : NColor := ⟨some 0, some 0, some 0⟩

/-- Componentwise (NaN-propagating) color addition. -/
def NColor.add (a b : NColor) : NColor := ⟨a.r.add b.r, a.g.add b.g, a.b.add b.b⟩

/-- cy::Color::IsBlack on NaN-aware channels: each `== 0` comparison is
false when the channel is NaN. -/
def NColor.IsBlack (c : NColor) : Prop := c.r = some 0 ∧ c.g = some 0 ∧ c.b = some 0

/-- A color containing at least one NaN component. -/
def NColor.hasNaN (c : NColor) : Prop := c.r = none ∨ c.g = none ∨ c.b = none

noncomputable instance : DecidablePred NColor.IsBlack := fun _ => Classical.propDecidable _

/-- MtlBlinn::GenerateSample, emission leaf (materials.cpp lines
118-128): reached when the lobe roll exceeds dPow+rPow+tPow (passed here
as `dprt`, after the ≥1 normalization).  `emitEval` is the evaluated
Emission texture, `N` the shading normal.  Result: the returned boolean,
the out-parameter `dir`, and the Info fields (prob, mult). -/
noncomputable def emissionLeaf (emitEval : NColor) (dprt : ℝ) (N : Vec3) :
    Bool × Vec3 × ℝ × NColor :=
  let prob := 1 - dprt
  let emit := if emitEval.r.isNone then NColor.black else emitEval
  if ¬emit.IsBlack then (false, N, prob, emit)
  else (false, Vec3.zero, prob, NColor.black)

/-- MtlBlinn::GetSampleInfo, emission accumulation (materials.cpp lines
189-191): `si.mult += emit; if (!emit.IsBlack()) si.prob += 1-(d+r+t)`.
Takes the incoming (prob, mult) accumulated by the lobe evaluation and
returns the final pair. -/
noncomputable def emissionAccum (emitEval : NColor) (dprt siProb : ℝ)
    (siMult : NColor) : ℝ × NColor :=
  let mult := siMult.add emitEval
  let prob := if ¬emitEval.IsBlack then siProb + (1 - dprt) else siProb
  (prob, mult)

/-- C8 counterexample: an emission evaluating to (0, NaN, 0) is *not*
replaced with black — the sampler's leaf passes it through (only the r
channel is tested), and the evaluator's accumulation adds a NaN emission
with no check at all. -/
theorem C8_counterexample :
    NColor.hasNaN ⟨some 0, none, some 0⟩ ∧
    (emissionLeaf ⟨some 0, none, some 0⟩ 0 ⟨0, 0, 1⟩).2.2.2 = (⟨some 0, none, some 0⟩ : NColor) ∧
    ¬((emissionLeaf ⟨some 0, none, some 0⟩ 0 ⟨0, 0, 1⟩).2.2.2).IsBlack ∧
    (emissionAccum ⟨none, some 0, some 0⟩ 0 0 NColor.black).2 = (⟨none, some 0, some 0⟩ : NColor) ∧
    ¬((emissionAccum ⟨none, some 0, some 0⟩ 0 0 NColor.black).2).IsBlack := by
  refine ⟨Or.inr (Or.inl rfl), ?_, ?_, ?_, ?_⟩
  · unfold emissionLeaf
    rw [if_pos]
    · simp [NColor.IsBlack]
    · simp [NColor.IsBlack]
  · unfold emissionLeaf
    rw [if_pos]
    · simp [NColor.IsBlack]
    · simp [NColor.IsBlack]
  · unfold emissionAccum
    simp [NColor.add, NColor.black, NanF.add]
  · unfold emissionAccum
    simp [NColor.add, NColor.black, NanF.add, NColor.IsBlack]

/-- C8 amended: NaN emission is replaced with black only in
GenerateSample's emission leaf and only when the *r* channel is NaN (in
which case mult is black and dir is zeroed, because the replaced
emission is black); an emission whose r channel is a number is passed
through unchanged even if g or b is NaN; and GetSampleInfo accumulates
the evaluated emission into mult unconditionally, with no NaN check. -/
theorem C8_emission_nan_handling (emit : NColor) (dprt siProb : ℝ) (N : Vec3)
    (siMult : NColor) :
    (emit.r = none →
      (emissionLeaf emit dprt N).2.2.2 = NColor.black ∧
      (emissionLeaf emit dprt N).2.1 = Vec3.zero) ∧
    (emit.r ≠ none → ¬emit.IsBlack →
      (emissionLeaf emit dprt N).2.2.2 = emit ∧
      (emissionLeaf emit dprt N).2.1 = N) ∧
    (emissionAccum emit dprt siProb siMult).2 = siMult.add emit := by
  refine ⟨?_, ?_, rfl⟩
  · intro hr
    unfold emissionLeaf
    rw [hr]
    simp [NColor.IsBlack, NColor.black]
  · intro hr hb
    unfold emissionLeaf
    have : emit.r.isNone = false := by
      cases hemit : emit.r with
      | none => exact absurd hemit hr
      | some v => rfl
    rw [this]
    simp only [Bool.false_eq_true, if_false]
    rw [if_pos hb]
    exact ⟨rfl, rfl⟩

/-- C8 witness: the amended statement applied to a concrete emission with
NaN in the r channel. -/
theorem C8_emission_nan_handling_witness :
    ((⟨none, some 1, some 0⟩ : NColor).r = none →
      (emissionLeaf ⟨none, some 1, some 0⟩ 0 ⟨0, 0, 1⟩).2.2.2 = NColor.black ∧
      (emissionLeaf ⟨none, some 1, some 0⟩ 0 ⟨0, 0, 1⟩).2.1 = Vec3.zero) ∧
    ((⟨none, some 1, some 0⟩ : NColor).r ≠ none →
      ¬(⟨none, some 1, some 0⟩ : NColor).IsBlack →
      (emissionLeaf ⟨none, some 1, some 0⟩ 0 ⟨0, 0, 1⟩).2.2.2 = ⟨none, some 1, some 0⟩ ∧
      (emissionLeaf ⟨none, some 1, some 0⟩ 0 ⟨0, 0, 1⟩).2.1 = ⟨0, 0, 1⟩) ∧
    (emissionAccum ⟨none, some 1, some 0⟩ 0 0 NColor.black).2 =
      NColor.black.add ⟨none, some 1, some 0⟩ :=
  C8_emission_nan_handling ⟨none, some 1, some 0⟩ 0 0 ⟨0, 0, 1⟩ NColor.black

/-! ## The path integrator (raytracer.cpp)

The integrator is embedded against an environment `Env` packaging the
scene-dependent queries it performs: `TraceRay`/`ShadowTraceRay` over
the (external) scene graph, the background and environment textures,
the renderable lights, the material dispatched from the hit node, the
global volume coefficients, the camera quantities computed by
`LoadScene`, and the RNG generator function.  The worker RNG lives in
rng.h, outside the snapshot; it is modelled from the spec (§4.B) as a
stream of uniform values indexed by the seed and a draw counter. -/

/-- Modelled from the spec: the per-thread RNG state (rng.h is not part
of the snapshot).  `seed` is the constructor argument and `ctr` counts
the draws taken so far; the generator functions live in `Env`. -/
structure RNG where
  seed : ℕ
  ctr : ℕ

/-- Modelled from the spec: SamplerInfo (§3) — current pixel, current
sample index, and the current hit record (P, N, GN, V, uvw, front).
The RNG handle it carries is threaded separately as explicit state. -/
structure SInfo where
  x : ℕ
  y : ℕ
  sampleNum : ℕ
  p : Vec3
  n : Vec3
  gn : Vec3
  v : Vec3
  uvw : Vec3
  front : Bool

/-- A fresh SamplerInfo before any pixel or hit has been recorded. -/
def SInfo.init : SInfo :=
  { x := 0, y := 0, sampleNum := 0, p := Vec3.zero, n := Vec3.zero,
    gn := Vec3.zero, v := Vec3.zero, uvw := Vec3.zero, front := true }

/-- Modelled from the spec: SamplerInfo::SetHit copies the hit record
into the sampler (P, N, GN, uvw, front) and sets V to the reversed
normalized ray direction (§3). -/
noncomputable def SInfo.setHit (s : SInfo) (ray : Ray) (h : HitInfo) : SInfo :=
  { s with p := h.p, n := h.n, gn := h.gn, v := (-ray.dir).normalized,
           uvw := h.uvw, front := h.front }

/-- SamplerInfo::SetPixel. -/
def SInfo.setPixel (s : SInfo) (i j : ℕ) : SInfo := { s with x := i, y := j }

/-- SamplerInfo::SetPixelSample. -/
def SInfo.setPixelSample (s : SInfo) (n : ℕ) : SInfo := { s with sampleNum := n }

/-- A renderable light as the integrator consumes it: its pointer
identity, IsPhotonSource flag, and the three member functions it calls
(Light implementations live in lights.cpp; they are carried as opaque
functions here, with the sample generator threading the shared RNG). -/
structure LightObj where
  id : ℕ
  isPhotonSource : Bool
  generateSample : SInfo → RNG → Bool × Vec3 × DInfo × RNG
  getSampleInfo : SInfo → Vec3 → DInfo
  radiance : SInfo → Color

/-- The environment of the integrator: scene queries, lights, material
dispatch, volume coefficients (raytracer.h defaults 0.15f/0.06f), the
camera data computed by LoadScene, and the RNG generator functions.
`shadowTraceRay` takes the ray, the (re-initialized) HitInfo and t_max;
the integrator always passes hitSide = HIT_FRONT_AND_BACK, so that
argument is folded into the query. -/
structure Env where
  traceRay : Ray → HitInfo → Bool × HitInfo
  shadowTraceRay : Ray → HitInfo → ℝ → Bool × HitInfo
  background : Vec3 → Color
  envMap : Vec3 → Color
  lightRadiance : Option ℕ → SInfo → Color
  lightsRenderable : List LightObj
  mtlGenerateSample : Option ℕ → SInfo → RNG → Bool × Vec3 × DInfo × RNG
  mtlGetSampleInfo : Option ℕ → SInfo → Vec3 → DInfo
  sig_a : ℝ
  sig_s : ℝ
  rngFloat : ℕ → ℕ → ℝ
  rngInt : ℕ → ℕ → ℕ
  width : ℕ
  height : ℕ
  sampleMax : ℕ
  sRGB : Bool
  camW : ℝ
  camH : ℝ
  focaldist : ℝ
  dof : ℝ
  xHat : Vec3
  yHat : Vec3
  camToWorld : Vec3 → Vec3
  camPos : Vec3
  haltonX : ℕ → ℝ
  haltonY : ℕ → ℝ
  haltonR : ℕ → ℝ
  haltonTheta : ℕ → ℝ

/-- The extinction coefficient `sig_t = sig_a + sig_s` (raytracer.h). -/
def Env.sigT (env : Env) : ℝ := env.sig_a + env.sig_s

/-- One `RandomFloat()` draw: the generator value at the current counter,
and the advanced RNG state. -/
def RNG.nextFloat (env : Env) (r : RNG) : ℝ × RNG :=
  (env.rngFloat r.seed r.ctr, ⟨r.seed, r.ctr + 1⟩)

/-- One `RandomInt()` draw. -/
def RNG.nextInt (env : Env) (r : RNG) : ℕ × RNG :=
  (env.rngInt r.seed r.ctr, ⟨r.seed, r.ctr + 1⟩)

/-- The free-flight distance sample `tRand = -log(1-roll)/sig_t`
(raytracer.cpp line 189).  When `sig_t = 0` the IEEE division yields +∞
(roll > 0) or NaN (roll = 0), either of which fails the comparison
`tRand < hInfo.z` against every finite z; this is modelled by `none`. -/
noncomputable def freeFlight (sigT roll : ℝ) : Option ℝ :=
  if sigT = 0 then none else some (-Real.log (1 - roll) / sigT)

/-- The medium-scattering test `tRand < hInfo.z` (raytracer.cpp
line 192), false for the ∞/NaN case. -/
noncomputable def scatters (tr : Option ℝ) (z : ℝ) : Bool :=
  match tr with
  | none => false
  | some t => decide (t < z)

/-- The absorption/emission Russian-roulette test
`roll < sig_a / sig_t` (raytracer.cpp line 193), reusing the same draw
`roll` that produced the free-flight distance. -/
def absorbRoulette (env : Env) (roll : ℝ) : Prop := roll < env.sig_a / env.sigT

noncomputable instance (env : Env) (roll : ℝ) : Decidable (absorbRoulette env roll) := by
  unfold absorbRoulette; infer_instance

noncomputable instance (v : Vec3) : Decidable v.isZero := Classical.propDecidable _

/-- The background lookup coordinates
`(X/width, Y/height, 0.5)` (raytracer.cpp lines 196, 280). -/
noncomputable def pixelUVW (env : Env) (s : SInfo) : Vec3 :=
  ⟨(s.x : ℝ) / (env.width : ℝ), (s.y : ℝ) / (env.height : ℝ), 0.5⟩

/-- The color returned when the absorption roulette terminates the path
(raytracer.cpp lines 193-203). -/
noncomputable def absorptionColor (env : Env) (ray : Ray) (s : SInfo) (bounce : ℕ)
    (hit : Bool) : Color :=
  if bounce = 0 ∧ hit = false then env.background (pixelUVW env s)
  else if hit = false then env.envMap ray.dir
  else Color.black

/-- The color returned when the path neither scatters nor hits
(raytracer.cpp lines 279-283). -/
noncomputable def escapeColor (env : Env) (ray : Ray) (s : SInfo) (bounce : ℕ) : Color :=
  if bounce = 0 then env.background (pixelUVW env s) else env.envMap ray.dir

/-- The next-event-estimation contribution inside the medium branch
(raytracer.cpp lines 229-246), for a successful light sample with the
already count-divided `lInfo`. -/
noncomputable def mediumNEE (env : Env) (light : LightObj) (p lDir : Vec3)
    (lInfo : DInfo) : Color :=
  let sh := env.shadowTraceRay ⟨p, lDir⟩ HitInfo.init 1
  if sh.1 = true ∧ sh.2.isLight = true ∧ sh.2.light = some light.id then
    let lTransmit := Real.exp (-env.sigT * sh.2.z * lDir.length)
    let lPdf := Real.exp (-env.sigT * sh.2.z * lDir.length)
    let c1 := (lTransmit / lPdf) • lInfo.mult
    let lightToPhase := 1 / (4 * Real.pi) * lPdf
    let c2 := lightToPhase • c1
    let w := lInfo.prob * lInfo.prob /
      (lInfo.prob * lInfo.prob + lightToPhase * lightToPhase)
    w • c2
  else Color.black

/-- The isotropic phase-function direction sample
(raytracer.cpp lines 250-253). -/
noncomputable def phaseDir (xi1 xi2 : ℝ) : Vec3 :=
  let cosTheta := 2 * xi1 - 1
  let sinTheta := Real.sqrt (1 - cosTheta ^ 2)
  let phi := 2 * Real.pi * xi2
  ⟨sinTheta * Real.cos phi, sinTheta * Real.sin phi, cosTheta⟩

/-- The medium branch's combination
`transmittance/pdf * sig_s * (samp2 * 0.5 + lightSampColor)`
(raytracer.cpp lines 205-261). -/
noncomputable def mediumCombine (env : Env) (tRand : ℝ)
    (lightSampColor samp2 : Color) : Color :=
  let pdf := Real.exp (-env.sigT * tRand) * env.sigT
  let transmittance := Real.exp (-env.sigT * tRand)
  (transmittance / pdf) • (env.sig_s • ((0.5 : ℝ) • samp2 + lightSampColor))

/-- The light-sample contribution of materialSample
(raytracer.cpp lines 329-360), for a successful light sample with the
already count-divided `lInfo` of positive probability. -/
noncomputable def surfaceNEE (env : Env) (light : LightObj) (s : SInfo)
    (node : Option ℕ) (lDir : Vec3) (lInfo : DInfo) : Color :=
  let sh := env.shadowTraceRay ⟨s.p, lDir⟩ HitInfo.init 1
  let lInfo2 :=
    if sh.1 = true ∧ ¬(sh.1 = true ∧ sh.2.isLight = true ∧ sh.2.light = some light.id)
    then { lInfo with mult := Color.black } else lInfo
  let lDirN := lDir.normalized
  let lightColor0 := Color.divR lInfo2.mult lInfo2.prob
  let lToMat := env.mtlGetSampleInfo node s lDirN
  if lToMat.prob > 0 then
    let l1 := lInfo2.prob * lInfo2.prob
    let l2 := lToMat.prob * lToMat.prob
    (l1 / (l1 + l2)) • (lightColor0 * lToMat.mult)
  else Color.black

/-- Raytracer::randomLight (raytracer.cpp lines 383-386):
`lightsRenderable[RandomInt() % lightsRenderable.size()]`, with no
emptiness guard.  In C++ an empty list makes `% 0` undefined behaviour;
here the out-of-range lookup is `none`. -/
def randomLight (env : Env) (r : RNG) : Option (LightObj × RNG) :=
  let d := RNG.nextInt env r
  match env.lightsRenderable[d.1 % env.lightsRenderable.length]? with
  | none => none
  | some l => some (l, d.2)

/-- The failure modes of the embedded integrator: reaching the
unguarded `% 0` of randomLight, or exhausting the recursion fuel of the
embedding. -/
inductive RTErr where
  | emptyLights
  | outOfFuel
deriving DecidableEq

/-- Models raytracer.cpp line 270: at bounce 0 the light's Radiance is
evaluated, but its value is discarded — the branch returns black. -/
def discardRadiance (_evaluated : Color) : Color := Color.black

/-- One step of Raytracer::tracePath (raytracer.cpp lines 170-284): the
entire body, with the two recursive callees — `tracePath` itself (called
at bounce+1, line 256) and `materialSample` (called at the same bounce,
line 275) — passed in as `recT` and `recM`.  The result carries the
returned color, the final state of the by-reference HitInfo, and the
advanced RNG. -/
noncomputable def tracePathBody (env : Env)
    (recT : Ray → SInfo → HitInfo → ℕ → RNG → Except RTErr (Color × HitInfo × RNG))
    (recM : Ray → SInfo → HitInfo → ℕ → RNG → Except RTErr (Color × RNG))
    (ray : Ray) (sInfo : SInfo) (hInfo : HitInfo) (bounce : ℕ) (rng : RNG) :
    Except RTErr (Color × HitInfo × RNG) :=
  if 2000 ≤ bounce then .ok (Color.black, hInfo, rng)
  else
    let tr := env.traceRay ray HitInfo.init
    let hit := tr.1
    let h1 := tr.2
    let s2 := sInfo.setHit ray h1
    let h2 := if hit then h1 else { h1 with z := BIGFLOAT }
    let d1 := RNG.nextFloat env rng
    let roll := d1.1
    let r1 := d1.2
    let ff := freeFlight env.sigT roll
    if scatters ff h2.z then
      if absorbRoulette env roll then
        .ok (absorptionColor env ray s2 bounce hit, h2, r1)
      else
        let tRand := ff.getD 0
        let p := ray.p + tRand • ray.dir
        match randomLight env r1 with
        | none => .error .emptyLights
        | some (light, r2) =>
          let lSampInfo := s2.setHit ray { h2 with p := p }
          let gs := light.generateSample lSampInfo r2
          let r3 := gs.2.2.2
          let lightSampColor :=
            if gs.1 = true then
              mediumNEE env light p gs.2.1
                { gs.2.2.1 with
                  prob := gs.2.2.1.prob / (env.lightsRenderable.length : ℝ) }
            else Color.black
          let d2 := RNG.nextFloat env r3
          let d3 := RNG.nextFloat env d2.2
          let dirNew := phaseDir d2.1 d3.1
          match recT ⟨p, dirNew⟩ s2 h2 (bounce + 1) d3.2 with
          | .error e => .error e
          | .ok (samp2, hF, r4) =>
            .ok (mediumCombine env tRand lightSampColor samp2, hF, r4)
    else if hit then
      if h2.isLight then
        .ok (discardRadiance
              (if bounce = 0 then env.lightRadiance h2.light s2 else Color.black),
            h2, r1)
      else
        match recM ray s2 h2 bounce r1 with
        | .error e => .error e
        | .ok (c, r4) =>
          .ok ((Real.exp (-env.sigT * h2.z) / Real.exp (-env.sigT * h2.z)) • c,
              h2, r4)
    else .ok (escapeColor env ray s2 bounce, h2, r1)

/-- One step of Raytracer::materialSample (raytracer.cpp lines 286-370),
with the recursive call to tracePath (at bounce+1, line 316) passed in
as `recT`.  Its by-reference HitInfo is only read (for the node's
material and the geometric normal), so the result carries only the
color and the advanced RNG. -/
noncomputable def materialSampleBody (env : Env)
    (recT : Ray → SInfo → HitInfo → ℕ → RNG → Except RTErr (Color × HitInfo × RNG))
    (_ray : Ray) (s : SInfo) (hInfo : HitInfo) (bounce : ℕ) (rng : RNG) :
    Except RTErr (Color × RNG) :=
  match randomLight env rng with
  | none => .error .emptyLights
  | some (light, r1) =>
    let ms := env.mtlGenerateSample hInfo.node s r1
    let sample := ms.1
    let mDir := ms.2.1
    let mInfo0 := ms.2.2.1
    let r2 := ms.2.2.2
    if sample = false then .ok (mInfo0.mult, r2)
    else
      let mInfo :=
        if mInfo0.lobe = Lobe.SPECULAR ∧ mDir.dot s.gn < 0 then
          { mInfo0 with mult := Color.black }
        else mInfo0
      let matColor0 := Color.divR mInfo.mult mInfo.prob
      let matToL := light.getSampleInfo s mDir
      -- the light-sampling continuation (lines 321-369), entered with the
      -- final matColor and the current RNG state
      let cont := fun (matColor : Color) (r3 : RNG) =>
        let ls := light.generateSample s r3
        let lightSample := ls.1
        let lDir := ls.2.1
        let lInfo :=
          { ls.2.2.1 with
            prob := ls.2.2.1.prob / (env.lightsRenderable.length : ℝ) }
        let r4 := ls.2.2.2
        let lightColor :=
          if lightSample = true ∧ lInfo.prob > 0 then
            surfaceNEE env light s hInfo.node lDir lInfo
          else Color.black
        let wMat := mInfo.prob * mInfo.prob /
          (mInfo.prob * mInfo.prob + matToL.prob * matToL.prob)
        (.ok (lightColor + wMat • matColor, r4) : Except RTErr (Color × RNG))
      if matToL.prob = 0 ∧ ¬mDir.isZero then
        match recT ⟨s.p, mDir⟩ s HitInfo.init (bounce + 1) r2 with
        | .error e => .error e
        | .ok (gi, _, r3) => cont (matColor0 * gi) r3
      else cont matColor0 r2

mutual

/-- The fueled tracePath recursion: each level runs `tracePathBody` with
the fuel decremented for both callees; the fuel stands in for the C++
call stack.  `tracePath` below instantiates the fuel and
`fuel_irrelevant` shows any fuel of at least `2·(2001-bounce)+1` gives
the same result, bounding the real recursion depth. -/
noncomputable def tracePathF (env : Env) (fuel : ℕ) (ray : Ray) (sInfo : SInfo)
    (hInfo : HitInfo) (bounce : ℕ) (rng : RNG) :
    Except RTErr (Color × HitInfo × RNG) :=
  match fuel with
  | 0 => .error .outOfFuel
  | f + 1 =>
    tracePathBody env (tracePathF env f) (materialSampleF env f) ray sInfo hInfo bounce rng

/-- The fueled materialSample recursion. -/
noncomputable def materialSampleF (env : Env) (fuel : ℕ) (ray : Ray) (s : SInfo)
    (hInfo : HitInfo) (bounce : ℕ) (rng : RNG) : Except RTErr (Color × RNG) :=
  match fuel with
  | 0 => .error .outOfFuel
  | f + 1 => materialSampleBody env (tracePathF env f) ray s hInfo bounce rng

end

/-- Unfolding a successor fuel level of the tracePath recursion. -/
theorem tracePathF_succ (env : Env) (f : ℕ) (ray : Ray) (sInfo : SInfo)
    (hInfo : HitInfo) (bounce : ℕ) (rng : RNG) :
    tracePathF env (f + 1) ray sInfo hInfo bounce rng =
      tracePathBody env (tracePathF env f) (materialSampleF env f)
        ray sInfo hInfo bounce rng := rfl

/-- Unfolding a successor fuel level of the materialSample recursion. -/
theorem materialSampleF_succ (env : Env) (f : ℕ) (ray : Ray) (s : SInfo)
    (hInfo : HitInfo) (bounce : ℕ) (rng : RNG) :
    materialSampleF env (f + 1) ray s hInfo bounce rng =
      materialSampleBody env (tracePathF env f) ray s hInfo bounce rng := rfl

/-- `tracePathBody` only calls its tracePath callee at bounce+1 and its
materialSample callee at the same bounce, so it is a congruence in those
two restrictions. -/
theorem tracePathBody_congr (env : Env) (recT1 recT2 recM1 recM2)
    (ray : Ray) (sInfo : SInfo) (hInfo : HitInfo) (bounce : ℕ) (rng : RNG)
    (hT : ∀ ray2 s2 h2 rng2,
      recT1 ray2 s2 h2 (bounce + 1) rng2 = recT2 ray2 s2 h2 (bounce + 1) rng2)
    (hM : ∀ ray2 s2 h2 rng2,
      recM1 ray2 s2 h2 bounce rng2 = recM2 ray2 s2 h2 bounce rng2) :
    tracePathBody env recT1 recM1 ray sInfo hInfo bounce rng =
      tracePathBody env recT2 recM2 ray sInfo hInfo bounce rng := by
  unfold tracePathBody
  simp only [hT, hM]

/-- `materialSampleBody` only calls its tracePath callee at bounce+1. -/
theorem materialSampleBody_congr (env : Env) (recT1 recT2)
    (ray : Ray) (s : SInfo) (hInfo : HitInfo) (bounce : ℕ) (rng : RNG)
    (hT : ∀ ray2 s2 h2 rng2,
      recT1 ray2 s2 h2 (bounce + 1) rng2 = recT2 ray2 s2 h2 (bounce + 1) rng2) :
    materialSampleBody env recT1 ray s hInfo bounce rng =
      materialSampleBody env recT2 ray s hInfo bounce rng := by
  unfold materialSampleBody
  simp only [hT]

/-- The fuel that `tracePath` hands to the fueled recursion: one frame
for each remaining tracePath level, interleaved with at most one
materialSample frame per level. -/
def sufficientFuel (bounce : ℕ) : ℕ := 2 * (2001 - bounce) + 1

/-- Raytracer::tracePath at its C++ type: the fueled recursion run with
sufficient fuel for the given starting bounce. -/
noncomputable def tracePath (env : Env) (ray : Ray) (sInfo : SInfo) (hInfo : HitInfo)
    (bounce : ℕ) (rng : RNG) : Except RTErr (Color × HitInfo × RNG) :=
  tracePathF env (sufficientFuel bounce) ray sInfo hInfo bounce rng

/-- Raytracer::materialSample at its C++ type. -/
noncomputable def materialSample (env : Env) (ray : Ray) (s : SInfo) (hInfo : HitInfo)
    (bounce : ℕ) (rng : RNG) : Except RTErr (Color × RNG) :=
  materialSampleF env (2 * (2000 - bounce) + 2) ray s hInfo bounce rng

/-- Any two fuels above the depth bound give the same result, for both
functions of the mutual recursion: the fueled embedding is a faithful
rendering of the C++ recursion, whose depth from a given bounce is
bounded accordingly. -/
theorem fuel_irrelevant : ∀ fuel : ℕ,
    (∀ env g ray s h b rng, sufficientFuel b ≤ fuel → sufficientFuel b ≤ g →
      tracePathF env fuel ray s h b rng = tracePathF env g ray s h b rng) ∧
    (∀ env g ray s h b rng, 2 * (2000 - b) + 2 ≤ fuel → 2 * (2000 - b) + 2 ≤ g →
      materialSampleF env fuel ray s h b rng = materialSampleF env g ray s h b rng) := by
  intro fuel
  induction fuel using Nat.strong_induction_on with
  | _ fuel IH =>
    constructor
    · intro env g ray s h b rng hf hg
      obtain ⟨f, rfl⟩ : ∃ k, fuel = k + 1 := by
        cases fuel with
        | zero => exact absurd hf (by unfold sufficientFuel; omega)
        | succ k => exact ⟨k, rfl⟩
      obtain ⟨g0, rfl⟩ : ∃ k, g = k + 1 := by
        cases g with
        | zero => exact absurd hg (by unfold sufficientFuel; omega)
        | succ k => exact ⟨k, rfl⟩
      rw [tracePathF_succ, tracePathF_succ]
      by_cases hb : 2000 ≤ b
      · unfold tracePathBody
        rw [if_pos hb, if_pos hb]
      · refine tracePathBody_congr env _ _ _ _ ray s h b rng ?_ ?_
        · intro ray2 s2 h2 rng2
          exact (IH f (by omega)).1 env g0 ray2 s2 h2 (b + 1) rng2
            (by unfold sufficientFuel at hf ⊢; omega)
            (by unfold sufficientFuel at hg ⊢; omega)
        · intro ray2 s2 h2 rng2
          exact (IH f (by omega)).2 env g0 ray2 s2 h2 b rng2
            (by unfold sufficientFuel at hf; omega)
            (by unfold sufficientFuel at hg; omega)
    · intro env g ray s h b rng hf hg
      obtain ⟨f, rfl⟩ : ∃ k, fuel = k + 1 := by
        cases fuel with
        | zero => exact absurd hf (by omega)
        | succ k => exact ⟨k, rfl⟩
      obtain ⟨g0, rfl⟩ : ∃ k, g = k + 1 := by
        cases g with
        | zero => exact absurd hg (by omega)
        | succ k => exact ⟨k, rfl⟩
      rw [materialSampleF_succ, materialSampleF_succ]
      refine materialSampleBody_congr env _ _ ray s h b rng ?_
      intro ray2 s2 h2 rng2
      exact (IH f (by omega)).1 env g0 ray2 s2 h2 (b + 1) rng2
        (by unfold sufficientFuel; omega)
        (by unfold sufficientFuel; omega)

/-- A tracePath step cannot report fuel exhaustion if its callees cannot. -/
theorem tracePathBody_ne_outOfFuel (env : Env) (recT recM)
    (ray : Ray) (s : SInfo) (h : HitInfo) (b : ℕ) (rng : RNG)
    (hT : ∀ ray2 s2 h2 rng2, recT ray2 s2 h2 (b + 1) rng2 ≠
      Except.error RTErr.outOfFuel)
    (hM : ∀ ray2 s2 h2 rng2, recM ray2 s2 h2 b rng2 ≠
      Except.error RTErr.outOfFuel) :
    tracePathBody env recT recM ray s h b rng ≠ Except.error RTErr.outOfFuel := by
  unfold tracePathBody
  dsimp only
  repeat' split
  all_goals intro hcon
  all_goals first
    | exact Except.noConfusion hcon
    | exact Except.noConfusion hcon (fun h12 => RTErr.noConfusion h12)
    | (rename_i heq
       injection hcon with hcon2
       subst hcon2
       first
         | exact hT _ _ _ _ heq
         | exact hM _ _ _ _ heq)

/-- A materialSample step cannot report fuel exhaustion if its tracePath
callee cannot. -/
theorem materialSampleBody_ne_outOfFuel (env : Env) (recT)
    (ray : Ray) (s : SInfo) (h : HitInfo) (b : ℕ) (rng : RNG)
    (hT : ∀ ray2 s2 h2 rng2, recT ray2 s2 h2 (b + 1) rng2 ≠
      Except.error RTErr.outOfFuel) :
    materialSampleBody env recT ray s h b rng ≠ Except.error RTErr.outOfFuel := by
  unfold materialSampleBody
  dsimp only
  repeat' split
  all_goals intro hcon
  all_goals first
    | exact Except.noConfusion hcon
    | exact Except.noConfusion hcon (fun h12 => RTErr.noConfusion h12)
    | (rename_i heq
       injection hcon with hcon2
       subst hcon2
       exact hT _ _ _ _ heq)

/-- With fuel at least the depth bound, the fueled recursion never
exhausts its fuel: the C++ recursion depth really is bounded. -/
theorem no_fuel_error : ∀ fuel : ℕ,
    (∀ env ray s h b rng, sufficientFuel b ≤ fuel →
      tracePathF env fuel ray s h b rng ≠ Except.error RTErr.outOfFuel) ∧
    (∀ env ray s h b rng, 2 * (2000 - b) + 2 ≤ fuel →
      materialSampleF env fuel ray s h b rng ≠ Except.error RTErr.outOfFuel) := by
  intro fuel
  induction fuel using Nat.strong_induction_on with
  | _ fuel IH =>
    constructor
    · intro env ray s h b rng hf
      obtain ⟨f, rfl⟩ : ∃ k, fuel = k + 1 := by
        cases fuel with
        | zero => exact absurd hf (by unfold sufficientFuel; omega)
        | succ k => exact ⟨k, rfl⟩
      rw [tracePathF_succ]
      by_cases hb : 2000 ≤ b
      · unfold tracePathBody
        rw [if_pos hb]
        simp
      · refine tracePathBody_ne_outOfFuel env _ _ ray s h b rng ?_ ?_
        · intro ray2 s2 h2 rng2
          exact (IH f (by omega)).1 env ray2 s2 h2 (b + 1) rng2
            (by unfold sufficientFuel at hf ⊢; omega)
        · intro ray2 s2 h2 rng2
          exact (IH f (by omega)).2 env ray2 s2 h2 b rng2
            (by unfold sufficientFuel at hf; omega)
    · intro env ray s h b rng hf
      obtain ⟨f, rfl⟩ : ∃ k, fuel = k + 1 := by
        cases fuel with
        | zero => exact absurd hf (by omega)
        | succ k => exact ⟨k, rfl⟩
      rw [materialSampleF_succ]
      refine materialSampleBody_ne_outOfFuel env _ ray s h b rng ?_
      intro ray2 s2 h2 rng2
      exact (IH f (by omega)).1 env ray2 s2 h2 (b + 1) rng2
        (by unfold sufficientFuel; omega)

/-- A minimal concrete environment (empty scene, gray background, no
renderable lights, default volume coefficients 0.15/0.06, 1×1 image,
one sample, all-zero RNG stream), used to instantiate witnesses. -/
noncomputable def envUnit : Env :=
  { traceRay := fun _ h => (false, h)
    shadowTraceRay := fun _ h _ => (false, h)
    background := fun _ => Color.gray 0.5
    envMap := fun _ => Color.black
    lightRadiance := fun _ _ => Color.black
    lightsRenderable := []
    mtlGenerateSample := fun _ _ r => (false, Vec3.zero, DInfo.void, r)
    mtlGetSampleInfo := fun _ _ _ => DInfo.void
    sig_a := 0.15
    sig_s := 0.06
    rngFloat := fun _ _ => 0
    rngInt := fun _ _ => 0
    width := 1
    height := 1
    sampleMax := 1
    sRGB := false
    camW := 1
    camH := 1
    focaldist := 1
    dof := 0
    xHat := ⟨1, 0, 0⟩
    yHat := ⟨0, 1, 0⟩
    camToWorld := fun v => v
    camPos := Vec3.zero
    haltonX := fun _ => 0
    haltonY := fun _ => 0
    haltonR := fun _ => 0
    haltonTheta := fun _ => 0 }

/-- C7: tracePath is total — it returns black (leaving the HitInfo and
the RNG untouched) whenever bounce ≥ 2000, and the fueled embedding of
the mutual recursion tracePath/materialSample is independent of the fuel
(and never exhausts it) once the fuel reaches 2·(2001−bounce)+1 frames:
the recursion depth from a given bounce is bounded accordingly, every
recursive call passing bounce+1 into tracePath and never decreasing it. -/
theorem C7_tracePath_total :
    (∀ env ray s h b rng, 2000 ≤ b →
      tracePath env ray s h b rng = Except.ok (Color.black, h, rng)) ∧
    (∀ env ray s h b rng fuel, sufficientFuel b ≤ fuel →
      tracePathF env fuel ray s h b rng = tracePath env ray s h b rng) ∧
    (∀ env ray s h b rng fuel, sufficientFuel b ≤ fuel →
      tracePathF env fuel ray s h b rng ≠ Except.error RTErr.outOfFuel) := by
  refine ⟨?_, ?_, ?_⟩
  · intro env ray s h b rng hb
    unfold tracePath
    obtain ⟨k, hk⟩ : ∃ k, sufficientFuel b = k + 1 :=
      ⟨sufficientFuel b - 1, by unfold sufficientFuel; omega⟩
    rw [hk, tracePathF_succ]
    unfold tracePathBody
    rw [if_pos hb]
  · intro env ray s h b rng fuel hf
    exact (fuel_irrelevant fuel).1 env (sufficientFuel b) ray s h b rng hf (le_refl _)
  · intro env ray s h b rng fuel hf
    exact (no_fuel_error fuel).1 env ray s h b rng hf

/-- C7 witness: concrete instances of all three parts. -/
theorem C7_tracePath_total_witness :
    tracePath envUnit ⟨Vec3.zero, ⟨0, 0, 1⟩⟩ SInfo.init HitInfo.init 2000 ⟨0, 0⟩ =
      Except.ok (Color.black, HitInfo.init, (⟨0, 0⟩ : RNG)) ∧
    tracePathF envUnit 4003 ⟨Vec3.zero, ⟨0, 0, 1⟩⟩ SInfo.init HitInfo.init 0 ⟨0, 0⟩ =
      tracePath envUnit ⟨Vec3.zero, ⟨0, 0, 1⟩⟩ SInfo.init HitInfo.init 0 ⟨0, 0⟩ ∧
    tracePathF envUnit 4003 ⟨Vec3.zero, ⟨0, 0, 1⟩⟩ SInfo.init HitInfo.init 0 ⟨0, 0⟩ ≠
      Except.error RTErr.outOfFuel :=
  ⟨C7_tracePath_total.1 envUnit ⟨Vec3.zero, ⟨0, 0, 1⟩⟩ SInfo.init HitInfo.init 2000
      ⟨0, 0⟩ (by norm_num),
    C7_tracePath_total.2.1 envUnit ⟨Vec3.zero, ⟨0, 0, 1⟩⟩ SInfo.init HitInfo.init 0
      ⟨0, 0⟩ 4003 (by norm_num [sufficientFuel]),
    C7_tracePath_total.2.2 envUnit ⟨Vec3.zero, ⟨0, 0, 1⟩⟩ SInfo.init HitInfo.init 0
      ⟨0, 0⟩ 4003 (by norm_num [sufficientFuel])⟩

/-- C9: in tracePath's medium branch the absorption Russian roulette
reuses the very draw `roll` that produced the free-flight distance
t_free = −ln(1−roll)/σ_t, so (for 0 ≤ roll < 1 and positive
coefficients) the roulette fires exactly when roll < σ_a/σ_t,
equivalently exactly when t_free < −ln(1−σ_a/σ_t)/σ_t: absorption is a
deterministic function of the draw, occurring precisely on the shortest
free-flight distances. -/
theorem C9_roulette_reuses_draw (env : Env) (roll : ℝ)
    (_h0 : 0 ≤ roll) (h1 : roll < 1) (ha : 0 < env.sig_a) (hs : 0 < env.sig_s) :
    freeFlight env.sigT roll = some (-Real.log (1 - roll) / env.sigT) ∧
    (absorbRoulette env roll ↔
      -Real.log (1 - roll) / env.sigT <
        -Real.log (1 - env.sig_a / env.sigT) / env.sigT) := by
  have hT : 0 < env.sigT := by unfold Env.sigT; linarith
  constructor
  · unfold freeFlight
    rw [if_neg (ne_of_gt hT)]
  · unfold absorbRoulette
    have hfrac : env.sig_a / env.sigT < 1 := by
      rw [div_lt_one hT]; unfold Env.sigT; linarith
    have h1r : 0 < 1 - roll := by linarith
    have h1f : 0 < 1 - env.sig_a / env.sigT := by linarith
    rw [div_lt_div_iff_of_pos_right hT, neg_lt_neg_iff, Real.log_lt_log_iff h1f h1r]
    constructor <;> intro h <;> linarith

/-- C9 witness: the equivalence at the source's default coefficients
σ_a = 0.15, σ_s = 0.06 and the draw roll = 1/2. -/
theorem C9_roulette_reuses_draw_witness :
    freeFlight envUnit.sigT (1/2) =
      some (-Real.log (1 - 1/2) / envUnit.sigT) ∧
    (absorbRoulette envUnit (1/2) ↔
      -Real.log (1 - 1/2) / envUnit.sigT <
        -Real.log (1 - envUnit.sig_a / envUnit.sigT) / envUnit.sigT) :=
  C9_roulette_reuses_draw envUnit (1/2) (by norm_num) (by norm_num)
    (by norm_num [envUnit]) (by norm_num [envUnit])

/-- Evaluation of tracePath's surface branch at a light hit: when the
branch is reached (bounce below the cap, no medium scatter) and the hit
record is a light, the function returns black with the hit record and
one RNG draw consumed, at every bounce. -/
theorem tracePath_light_hit (env : Env) (ray : Ray) (s : SInfo) (h : HitInfo)
    (b : ℕ) (rng : RNG)
    (hb : b < 2000)
    (hhit : (env.traceRay ray HitInfo.init).1 = true)
    (hlight : (env.traceRay ray HitInfo.init).2.isLight = true)
    (hnosc : scatters (freeFlight env.sigT (RNG.nextFloat env rng).1)
        (env.traceRay ray HitInfo.init).2.z = false) :
    tracePath env ray s h b rng =
      Except.ok (Color.black, (env.traceRay ray HitInfo.init).2,
        (RNG.nextFloat env rng).2) := by
  unfold tracePath
  obtain ⟨k, hk⟩ : ∃ k, sufficientFuel b = k + 1 :=
    ⟨sufficientFuel b - 1, by unfold sufficientFuel; omega⟩
  rw [hk, tracePathF_succ]
  unfold tracePathBody
  rw [if_neg (by omega : ¬2000 ≤ b)]
  dsimp only
  rw [hhit]
  simp only [if_true, discardRadiance]
  rw [hnosc]
  simp only [Bool.false_eq_true, if_false, hlight, if_true]

/-- C3 amended: in tracePath's surface branch, when the closest hit is a
light and the branch is reached (bounce below the cap, no medium
scatter), the returned radiance is black at *every* bounce — including
bounce 0, where the light's Radiance is evaluated (see
`discardRadiance`) but the function still returns black; the HitInfo
ends at the hit record and exactly one RNG draw (the distance sample) is
consumed. -/
theorem C3_light_hit_returns_black (env : Env) (ray : Ray) (s : SInfo) (h : HitInfo)
    (b : ℕ) (rng : RNG)
    (hb : b < 2000)
    (hhit : (env.traceRay ray HitInfo.init).1 = true)
    (hlight : (env.traceRay ray HitInfo.init).2.isLight = true)
    (hnosc : scatters (freeFlight env.sigT (RNG.nextFloat env rng).1)
        (env.traceRay ray HitInfo.init).2.z = false) :
    tracePath env ray s h b rng =
      Except.ok (Color.black, (env.traceRay ray HitInfo.init).2,
        (RNG.nextFloat env rng).2) :=
  tracePath_light_hit env ray s h b rng hb hhit hlight hnosc

/-- The scene for the C3 counterexample: every ray hits a renderable
light at distance 5, the light's radiance is white, and the volume
coefficients are zero (so the IEEE free-flight sample is ∞/NaN and the
medium branch is never taken). -/
noncomputable def envC3 : Env :=
  { envUnit with
    sig_a := 0
    sig_s := 0
    traceRay := fun _ _ =>
      (true, { HitInfo.init with z := 5, isLight := true, light := some 0 })
    lightRadiance := fun _ _ => Color.gray 1 }

/-- C3 counterexample: at bounce 0, with the directly visible light's
radiance evaluating to white, tracePath still returns black — the
original claim that the bounce-0 result *is* the light's evaluated
radiance is false. -/
theorem C3_counterexample :
    envC3.lightRadiance ((envC3.traceRay ⟨Vec3.zero, ⟨0, 0, 1⟩⟩ HitInfo.init).2.light)
        (SInfo.init.setHit ⟨Vec3.zero, ⟨0, 0, 1⟩⟩
          (envC3.traceRay ⟨Vec3.zero, ⟨0, 0, 1⟩⟩ HitInfo.init).2) = Color.gray 1 ∧
    tracePath envC3 ⟨Vec3.zero, ⟨0, 0, 1⟩⟩ SInfo.init HitInfo.init 0 ⟨0, 0⟩ =
      Except.ok (Color.black, (envC3.traceRay ⟨Vec3.zero, ⟨0, 0, 1⟩⟩ HitInfo.init).2,
        (⟨0, 1⟩ : RNG)) ∧
    Color.black ≠ Color.gray 1 := by
  refine ⟨rfl, ?_, ?_⟩
  · exact tracePath_light_hit envC3 ⟨Vec3.zero, ⟨0, 0, 1⟩⟩ SInfo.init
      HitInfo.init 0 ⟨0, 0⟩ (by norm_num) rfl rfl
      (by norm_num [envC3, envUnit, Env.sigT, freeFlight, scatters])
  · intro hcon
    have := congrArg Color.r hcon
    norm_num [Color.black, Color.gray] at this

/-- C3 witness: the amended theorem applied at the counterexample's
concrete scene and bounce 0. -/
theorem C3_light_hit_returns_black_witness :
    (0 : ℕ) < 2000 ∧
    tracePath envC3 ⟨Vec3.zero, ⟨0, 0, 1⟩⟩ SInfo.init HitInfo.init 0 ⟨0, 0⟩ =
      Except.ok (Color.black, (envC3.traceRay ⟨Vec3.zero, ⟨0, 0, 1⟩⟩ HitInfo.init).2,
        (RNG.nextFloat envC3 ⟨0, 0⟩).2) :=
  ⟨by norm_num,
    C3_light_hit_returns_black envC3 ⟨Vec3.zero, ⟨0, 0, 1⟩⟩ SInfo.init HitInfo.init 0
      ⟨0, 0⟩ (by norm_num) rfl rfl
      (by norm_num [envC3, envUnit, Env.sigT, freeFlight, scatters])⟩

/-! ## Camera sampling and the pixel scheduler (raytracer.h / raytracer.cpp) -/

/-- SampleGenerator::GetSample (raytracer.h lines 41-47): the Halton
pixel sample for `sampleNum` shifted by the per-pixel phase `off`,
folded back into the unit square. -/
noncomputable def GetSample (env : Env) (sampleNum : ℕ) (off : ℝ) : ℝ × ℝ :=
  let xCoord := env.haltonX sampleNum + off
  let yCoord := env.haltonY sampleNum + off
  (if xCoord > 1 then xCoord - 1 else xCoord,
   if yCoord > 1 then yCoord - 1 else yCoord)

/-- SampleGenerator::GetDiskSample (raytracer.h lines 50-59). -/
noncomputable def GetDiskSample (env : Env) (sampleNum : ℕ) (off r : ℝ) : ℝ × ℝ :=
  let radius0 := Real.sqrt (env.haltonR sampleNum) + off
  let theta0 := env.haltonTheta sampleNum + off
  let radius1 := if radius0 > 1 then 2 - radius0 else radius0
  let theta1 := if theta0 > 1 then theta0 - 1 else theta0
  let radius := radius1 * r
  let theta := theta1 * (2 * Real.pi)
  (radius * Real.cos theta, radius * Real.sin theta)

/-- Raytracer::CamRayDest (raytracer.cpp lines 34-42). -/
noncomputable def CamRayDest (env : Env) (i j sampleNum : ℕ) (pixelOffset : ℝ) : Vec3 :=
  let sc := GetSample env sampleNum pixelOffset
  ⟨-(env.camW / 2) + (env.camW / (env.width : ℝ)) * ((i : ℝ) + sc.1),
    env.camH / 2 - (env.camH / (env.height : ℝ)) * ((j : ℝ) + sc.2),
    -env.focaldist⟩

/-- Raytracer::CameraRay (raytracer.cpp lines 44-58). -/
noncomputable def CameraRay (env : Env) (i j sampleNum : ℕ)
    (pixelOffset diskOffset : ℝ) : Ray :=
  let ds := GetDiskSample env sampleNum diskOffset env.dof
  let diff := ds.1 • env.xHat + ds.2 • env.yHat
  let rayOrg := env.camPos + diff
  let rayDest := env.camToWorld (CamRayDest env i j sampleNum pixelOffset) + env.camPos
  ⟨rayOrg, rayDest - rayOrg⟩

/-- Raytracer::samplePixel (raytracer.cpp lines 372-381): one camera-ray
path for the pixel held in `s`; returns the sample color, the out
parameter z (= hInfo.z after the trace), the final HitInfo, and the
advanced RNG. -/
noncomputable def samplePixel (env : Env) (pixelOffset dofOffset : ℝ) (sampleNum : ℕ)
    (hInfo : HitInfo) (s : SInfo) (rng : RNG) :
    Except RTErr (Color × ℝ × HitInfo × RNG) :=
  let ray := CameraRay env s.x s.y sampleNum pixelOffset dofOffset
  match tracePath env ray s hInfo 0 rng with
  | .error e => .error e
  | .ok (total, hF, rngF) => .ok (total, hF.z, hF, rngF)

/-- The sample loop of Raytracer::RenderPixels (raytracer.cpp lines
413-421): accumulate S1 and z_min over `remaining` further samples
starting at index `sampNum`. -/
noncomputable def sampleLoop (env : Env) (pixelOffset dofOffset : ℝ) (s : SInfo)
    (hInfo : HitInfo) (rng : RNG) (sampNum remaining : ℕ) (S1 : Color) (zMin : ℝ) :
    Except RTErr (Color × ℝ × HitInfo × SInfo × RNG) :=
  match remaining with
  | 0 => .ok (S1, zMin, hInfo, s, rng)
  | rem + 1 =>
    let s1 := s.setPixelSample sampNum
    match samplePixel env pixelOffset dofOffset sampNum hInfo s1 rng with
    | .error e => .error e
    | .ok (c, z, h1, rng1) =>
      sampleLoop env pixelOffset dofOffset s1 h1 rng1 (sampNum + 1) rem
        (S1 + c) (if z < zMin then z else zMin)

/-- What RenderPixels stores for one pixel: the 8-bit color written to
the image buffer, the Z-buffer value, and the sample count. -/
structure PixelWrite where
  color : Color24
  z : ℝ
  count : ℕ

/-- The per-pixel body of Raytracer::RenderPixels (raytracer.cpp lines
397-430): set the pixel, draw the anti-alias and DoF phases from the
worker's RNG, run the sample loop, divide the sum S1 by `sampNum + 1`
(the loop counter one past the last sample — i.e. by sampleMax+1),
optionally sRGB-encode, quantize to Color24, and record z_min and the
sample count.  Also returns the worker state threaded across pixels
(its HitInfo variable, SamplerInfo, and RNG). -/
noncomputable def renderPixel (env : Env) (s : SInfo) (hInfo : HitInfo) (rng : RNG)
    (index : ℕ) : Except RTErr (PixelWrite × HitInfo × SInfo × RNG) :=
  let i := index % env.width
  let j := index / env.width
  let s0 := s.setPixel i j
  let d1 := RNG.nextFloat env rng
  let pixOffset := d1.1
  let d2 := RNG.nextFloat env d1.2
  let dofOffset := d2.1
  match sampleLoop env pixOffset dofOffset s0 hInfo d2.2 0 env.sampleMax
      Color.black BIGFLOAT with
  | .error e => .error e
  | .ok (S1, zMin, hF, sF, rngF) =>
    let color := Color.divR S1 ((env.sampleMax : ℝ) + 1)
    let color2 := if env.sRGB then color.linear2sRGB else color
    .ok (⟨color2.toColor24, zMin, env.sampleMax⟩, hF, sF, rngF)

/-- The worker loop of Raytracer::RenderPixels over the successive pixel
indices this worker obtains from the atomic counter, threading its
single RNG (and its HitInfo and SamplerInfo locals) across pixels.
`numPixels = width·height` bounds the loop. -/
noncomputable def workerGo (env : Env) (s : SInfo) (hInfo : HitInfo) (rng : RNG) :
    List ℕ → List (ℕ × Except RTErr PixelWrite)
  | [] => []
  | idx :: rest =>
    if idx < env.width * env.height then
      match renderPixel env s hInfo rng idx with
      | .error e => [(idx, .error e)]
      | .ok (w, h1, s1, rng1) => (idx, .ok w) :: workerGo env s1 h1 rng1 rest
    else []

/-- One worker of Raytracer::RenderPixels (raytracer.cpp lines 388-443):
`RNG rng(index)` is constructed once, from the *first* index the worker
draws, before the pixel loop; the same stream then serves every pixel
this worker processes. -/
noncomputable def workerRun (env : Env) (idxs : List ℕ) :
    List (ℕ × Except RTErr PixelWrite) :=
  match idxs with
  | [] => []
  | first :: _ => workerGo env SInfo.init HitInfo.init ⟨first, 0⟩ idxs

/-- Raytracer::BeginRender (raytracer.cpp lines 445-450): the renderable
lights are the scene lights with IsPhotonSource() true, in order. -/
def lightsRenderableOf (lights : List LightObj) : List LightObj :=
  lights.filter (fun l => l.isPhotonSource)

/-- Evaluation of tracePath when nothing is hit, the free-flight sample
scatters (t < BIGFLOAT) and the absorption roulette fires: the
absorption color is returned after one RNG draw. -/
theorem tracePath_absorb_nohit (env : Env) (ray : Ray) (s : SInfo) (h : HitInfo)
    (b : ℕ) (rng : RNG)
    (hb : b < 2000)
    (hhit : (env.traceRay ray HitInfo.init).1 = false)
    (hsc : scatters (freeFlight env.sigT (RNG.nextFloat env rng).1) BIGFLOAT = true)
    (habs : absorbRoulette env (RNG.nextFloat env rng).1) :
    tracePath env ray s h b rng =
      Except.ok
        (absorptionColor env ray
          (s.setHit ray (env.traceRay ray HitInfo.init).2) b false,
        { (env.traceRay ray HitInfo.init).2 with z := BIGFLOAT },
        (RNG.nextFloat env rng).2) := by
  unfold tracePath
  obtain ⟨k, hk⟩ : ∃ k, sufficientFuel b = k + 1 :=
    ⟨sufficientFuel b - 1, by unfold sufficientFuel; omega⟩
  rw [hk, tracePathF_succ]
  unfold tracePathBody
  rw [if_neg (by omega : ¬2000 ≤ b)]
  dsimp only
  rw [hhit]
  simp only [Bool.false_eq_true, if_false]
  rw [hsc]
  simp only [if_true]
  rw [if_pos habs]

/-- Evaluation of tracePath when nothing is hit and the free-flight
sample does not scatter (in particular when sig_t = 0 and the IEEE
sample is ∞/NaN): the escape color is returned after one RNG draw. -/
theorem tracePath_escape_nohit (env : Env) (ray : Ray) (s : SInfo) (h : HitInfo)
    (b : ℕ) (rng : RNG)
    (hb : b < 2000)
    (hhit : (env.traceRay ray HitInfo.init).1 = false)
    (hsc : scatters (freeFlight env.sigT (RNG.nextFloat env rng).1) BIGFLOAT = false) :
    tracePath env ray s h b rng =
      Except.ok
        (escapeColor env ray (s.setHit ray (env.traceRay ray HitInfo.init).2) b,
        { (env.traceRay ray HitInfo.init).2 with z := BIGFLOAT },
        (RNG.nextFloat env rng).2) := by
  unfold tracePath
  obtain ⟨k, hk⟩ : ∃ k, sufficientFuel b = k + 1 :=
    ⟨sufficientFuel b - 1, by unfold sufficientFuel; omega⟩
  rw [hk, tracePathF_succ]
  unfold tracePathBody
  rw [if_neg (by omega : ¬2000 ≤ b)]
  dsimp only
  rw [hhit]
  simp only [Bool.false_eq_true, if_false]
  rw [hsc]
  simp only [Bool.false_eq_true, if_false]

/-- Evaluation of tracePath through the medium-scatter continuation when
nothing is hit, the roulette does not fire, the chosen light generates
no sample (consuming no draws), and the recursion is left symbolic: the
phase direction is drawn from the next two floats and the recursion's
result is combined by `mediumCombine` with a black NEE contribution. -/
theorem tracePath_scatter_nohit (env : Env) (ray : Ray) (s : SInfo) (h : HitInfo)
    (b : ℕ) (rng : RNG) (L : LightObj) (rL : RNG)
    (hb : b < 2000)
    (hhit : (env.traceRay ray HitInfo.init).1 = false)
    (hsc : scatters (freeFlight env.sigT (RNG.nextFloat env rng).1) BIGFLOAT = true)
    (habs : ¬absorbRoulette env (RNG.nextFloat env rng).1)
    (hrl : randomLight env (RNG.nextFloat env rng).2 = some (L, rL))
    (hgen : L.generateSample
        ((s.setHit ray (env.traceRay ray HitInfo.init).2).setHit ray
          { { (env.traceRay ray HitInfo.init).2 with z := BIGFLOAT } with
            p := ray.p +
              ((freeFlight env.sigT (RNG.nextFloat env rng).1).getD 0) • ray.dir })
        rL = (false, Vec3.zero, DInfo.void, rL)) :
    tracePath env ray s h b rng =
      (match tracePath env
          ⟨ray.p + ((freeFlight env.sigT (RNG.nextFloat env rng).1).getD 0) • ray.dir,
            phaseDir (RNG.nextFloat env rL).1
              (RNG.nextFloat env (RNG.nextFloat env rL).2).1⟩
          (s.setHit ray (env.traceRay ray HitInfo.init).2)
          { (env.traceRay ray HitInfo.init).2 with z := BIGFLOAT }
          (b + 1)
          (RNG.nextFloat env (RNG.nextFloat env rL).2).2 with
        | .error e => .error e
        | .ok (samp2, hF, r4) =>
          .ok (mediumCombine env
                ((freeFlight env.sigT (RNG.nextFloat env rng).1).getD 0)
                Color.black samp2, hF, r4)) := by
  unfold tracePath
  obtain ⟨k, hk⟩ : ∃ k, sufficientFuel b = k + 1 :=
    ⟨sufficientFuel b - 1, by unfold sufficientFuel; omega⟩
  rw [hk, tracePathF_succ]
  unfold tracePathBody
  rw [if_neg (by omega : ¬2000 ≤ b)]
  dsimp only
  rw [hhit]
  simp only [Bool.false_eq_true, if_false]
  rw [hsc]
  simp only [if_true]
  rw [if_neg habs]
  rw [hrl]
  dsimp only
  rw [hgen]
  dsimp only
  simp only [Bool.false_eq_true, if_false]
  have hrec : ∀ rayX sX hX rngX,
      tracePathF env k rayX sX hX (b + 1) rngX =
      tracePathF env (sufficientFuel (b + 1)) rayX sX hX (b + 1) rngX :=
    fun rayX sX hX rngX => (fuel_irrelevant k).1 env (sufficientFuel (b + 1))
      rayX sX hX (b + 1) rngX (by unfold sufficientFuel at hk ⊢; omega) (le_refl _)
  rw [hrec]

/-- C10 amended: randomLight indexes `lightsRenderable[RandomInt() %
size]` with no emptiness guard — it reaches the undefined `% 0` exactly
when the list is empty, which (by BeginRender's filter) happens exactly
when no scene light has IsPhotonSource() true; it is invoked on every
pass through the medium branch that survives the absorption roulette,
and at the top of every materialSample call, so any path reaching either
of those points in a renderable-light-free scene hits the fault. -/
theorem C10_randomLight_precondition :
    (∀ env rng, randomLight env rng = none ↔ env.lightsRenderable = []) ∧
    (∀ lights : List LightObj,
      lightsRenderableOf lights = [] ↔ ∀ l ∈ lights, l.isPhotonSource = false) ∧
    (∀ env ray s h b rng, b < 2000 →
      env.lightsRenderable = [] →
      (env.traceRay ray HitInfo.init).1 = false →
      scatters (freeFlight env.sigT (RNG.nextFloat env rng).1) BIGFLOAT = true →
      ¬absorbRoulette env (RNG.nextFloat env rng).1 →
      tracePath env ray s h b rng = Except.error RTErr.emptyLights) ∧
    (∀ env ray s h b rng,
      env.lightsRenderable = [] →
      materialSample env ray s h b rng = Except.error RTErr.emptyLights) := by
  refine ⟨?_, ?_, ?_, ?_⟩
  · intro env rng
    cases henv : env.lightsRenderable with
    | nil => simp [randomLight, henv]
    | cons a as =>
      simp only [randomLight, henv]
      rw [List.getElem?_eq_getElem
        (Nat.mod_lt _ (by simp : 0 < (a :: as).length))]
      simp
  · intro lights
    unfold lightsRenderableOf
    constructor
    · intro hnil l hl
      by_contra hcon
      have : l ∈ lights.filter (fun l => l.isPhotonSource) :=
        List.mem_filter.mpr ⟨hl, by simpa using hcon⟩
      rw [hnil] at this
      exact absurd this (List.not_mem_nil l)
    · intro hall
      rw [List.filter_eq_nil_iff]
      intro l hl
      simp [hall l hl]
  · intro env ray s h b rng hb hempty hhit hsc habs
    unfold tracePath
    obtain ⟨k, hk⟩ : ∃ k, sufficientFuel b = k + 1 :=
      ⟨sufficientFuel b - 1, by unfold sufficientFuel; omega⟩
    rw [hk, tracePathF_succ]
    unfold tracePathBody
    rw [if_neg (by omega : ¬2000 ≤ b)]
    dsimp only
    rw [hhit]
    simp only [Bool.false_eq_true, if_false]
    rw [hsc]
    simp only [if_true]
    rw [if_neg habs]
    have : randomLight env (RNG.nextFloat env rng).2 = none := by
      simp [randomLight, hempty]
    rw [this]
  · intro env ray s h b rng hempty
    unfold materialSample
    obtain ⟨k, hk⟩ : ∃ k, 2 * (2000 - b) + 2 = k + 1 := ⟨2 * (2000 - b) + 1, rfl⟩
    rw [hk, materialSampleF_succ]
    unfold materialSampleBody
    have : randomLight env rng = none := by simp [randomLight, hempty]
    rw [this]

/-- C10 counterexample: a complete, successful 1×1 render of a scene
with no photon-source light (the absorption roulette ends the only path
before the scatter continuation), refuting the claim that *every*
render of such a scene reaches the modulo-by-zero. -/
theorem C10_counterexample :
    lightsRenderableOf [] = [] ∧
    envUnit.lightsRenderable = lightsRenderableOf [] ∧
    workerRun envUnit [0] =
      [(0, Except.ok ⟨⟨64, 64, 64⟩, BIGFLOAT, 1⟩)] := by
  refine ⟨rfl, rfl, ?_⟩
  have habs : absorbRoulette envUnit 0 := by
    norm_num [absorbRoulette, envUnit, Env.sigT]
  have hsc : scatters (freeFlight envUnit.sigT 0) BIGFLOAT = true := by
    norm_num [scatters, freeFlight, envUnit, Env.sigT, BIGFLOAT, Real.log_one]
  have htp : tracePath envUnit
      (CameraRay envUnit ((SInfo.init.setPixel 0 0).setPixelSample 0).x
        ((SInfo.init.setPixel 0 0).setPixelSample 0).y 0 0 0)
      ((SInfo.init.setPixel 0 0).setPixelSample 0) HitInfo.init 0 ⟨0, 2⟩ =
      Except.ok (Color.gray 0.5, HitInfo.init, (⟨0, 3⟩ : RNG)) := by
    rw [tracePath_absorb_nohit envUnit _ _ _ 0 ⟨0, 2⟩ (by norm_num) rfl hsc habs]
    simp [absorptionColor, envUnit, RNG.nextFloat, HitInfo.init]
  unfold workerRun workerGo
  rw [if_pos (by norm_num [envUnit] : (0:ℕ) < envUnit.width * envUnit.height)]
  unfold renderPixel
  dsimp only
  have e1 : RNG.nextFloat envUnit ⟨0, 0⟩ = (0, ⟨0, 1⟩) := rfl
  have e2 : RNG.nextFloat envUnit ⟨0, 1⟩ = (0, ⟨0, 2⟩) := rfl
  have ew : envUnit.width = 1 := rfl
  have esm : envUnit.sampleMax = 1 := rfl
  have esr : envUnit.sRGB = false := rfl
  simp only [e1, e2, ew, esm, esr]
  norm_num
  unfold sampleLoop
  dsimp only
  unfold samplePixel
  dsimp only
  rw [htp]
  dsimp only
  rw [if_neg (by norm_num [HitInfo.init] : ¬(HitInfo.init.z < BIGFLOAT))]
  unfold sampleLoop
  dsimp only
  unfold workerGo
  have hc : (Color.black + Color.gray 0.5).divR 2 = ⟨1/4, 1/4, 1/4⟩ := by
    norm_num [Color.black, Color.gray, Color.divR]
  rw [hc]
  have hfloor : ⌊((1:ℝ)/4 * 255 + 0.5)⌋ = (64:ℤ) := Int.floor_eq_iff.mpr (by norm_num)
  have h24 : (⟨1/4, 1/4, 1/4⟩ : Color).toColor24 = ⟨64, 64, 64⟩ := by
    unfold Color.toColor24 toByte truncInt clampInt
    rw [if_pos (by norm_num : (0:ℝ) ≤ 1/4 * 255 + 0.5), hfloor]
    norm_num
    rfl
  rw [h24]

/-- C10 witness: the amended theorem's parts at concrete inputs — an
empty-lights randomLight is the error case, the filter of a photon-less
lights list is empty, and both the scatter continuation and a
materialSample call fault on an empty-lights scene. -/
theorem C10_randomLight_precondition_witness :
    (randomLight envUnit ⟨0, 0⟩ = none ↔ envUnit.lightsRenderable = []) ∧
    (lightsRenderableOf [] = [] ↔
      ∀ l ∈ ([] : List LightObj), l.isPhotonSource = false) ∧
    tracePath { envUnit with sig_a := 0 } (Ray.mk Vec3.zero ⟨0, 0, 1⟩) SInfo.init
      HitInfo.init 0 ⟨0, 0⟩ = Except.error RTErr.emptyLights ∧
    materialSample envUnit (Ray.mk Vec3.zero ⟨0, 0, 1⟩) SInfo.init HitInfo.init 0
        ⟨0, 0⟩ = Except.error RTErr.emptyLights :=
  ⟨C10_randomLight_precondition.1 envUnit ⟨0, 0⟩,
    C10_randomLight_precondition.2.1 [],
    C10_randomLight_precondition.2.2.1 { envUnit with sig_a := 0 }
      (Ray.mk Vec3.zero ⟨0, 0, 1⟩) SInfo.init HitInfo.init 0 ⟨0, 0⟩
      (by norm_num) rfl rfl
      (by norm_num [scatters, freeFlight, envUnit, Env.sigT, BIGFLOAT, Real.log_one,
        RNG.nextFloat])
      (by norm_num [absorbRoulette, envUnit, Env.sigT, RNG.nextFloat]),
    C10_randomLight_precondition.2.2.2 envUnit (Ray.mk Vec3.zero ⟨0, 0, 1⟩)
      SInfo.init HitInfo.init 0 ⟨0, 0⟩ rfl⟩

/-- The spec §8.1 scenario: empty scene, constant background gray 0.5,
1×1 image, sampleMax = 1, σ_a = σ_s = 0, sRGB off. -/
noncomputable def envC1 : Env := { envUnit with sig_a := 0, sig_s := 0 }

/-- C1 evaluation at the failing input: the single path sample is
exactly gray 0.5 (the background), so the claimed average is 0.5, but
RenderPixels divides the sum S1 by `sampNum + 1 = sampleMax + 1 = 2` and
stores Color24(0.25) = (64,64,64) instead of Color24(0.5) = (128,128,128):
the written pixel is not the average of the samples taken. -/
theorem C1_average_off_by_one :
    workerRun envC1 [0] = [(0, Except.ok ⟨⟨64, 64, 64⟩, BIGFLOAT, 1⟩)] ∧
    (Color.black + Color.gray 0.5).divR ((envC1.sampleMax : ℝ) + 1) =
      ⟨1/4, 1/4, 1/4⟩ ∧
    (⟨1/4, 1/4, 1/4⟩ : Color).toColor24 = ⟨64, 64, 64⟩ ∧
    (Color.black + Color.gray 0.5).divR (envC1.sampleMax : ℝ) =
      ⟨1/2, 1/2, 1/2⟩ ∧
    (⟨1/2, 1/2, 1/2⟩ : Color).toColor24 = ⟨128, 128, 128⟩ ∧
    (⟨64, 64, 64⟩ : Color24) ≠ ⟨128, 128, 128⟩ := by
  have hfloor : ⌊((1:ℝ)/4 * 255 + 0.5)⌋ = (64:ℤ) := Int.floor_eq_iff.mpr (by norm_num)
  have h24 : (⟨1/4, 1/4, 1/4⟩ : Color).toColor24 = ⟨64, 64, 64⟩ := by
    unfold Color.toColor24 toByte truncInt clampInt
    rw [if_pos (by norm_num : (0:ℝ) ≤ 1/4 * 255 + 0.5), hfloor]
    norm_num
    rfl
  have hfloor2 : ⌊((1:ℝ)/2 * 255 + 0.5)⌋ = (128:ℤ) := Int.floor_eq_iff.mpr (by norm_num)
  have h128 : (⟨1/2, 1/2, 1/2⟩ : Color).toColor24 = ⟨128, 128, 128⟩ := by
    unfold Color.toColor24 toByte truncInt clampInt
    rw [if_pos (by norm_num : (0:ℝ) ≤ 1/2 * 255 + 0.5), hfloor2]
    norm_num
    rfl
  refine ⟨?_, by norm_num [Color.black, Color.gray, Color.divR, envC1, envUnit],
    h24, by norm_num [Color.black, Color.gray, Color.divR, envC1, envUnit],
    h128, by intro hcon; exact absurd (congrArg Color24.r hcon) (by norm_num)⟩
  have hsc : scatters (freeFlight envC1.sigT 0) BIGFLOAT = false := by
    norm_num [scatters, freeFlight, envC1, envUnit, Env.sigT]
  have htp : tracePath envC1
      (CameraRay envC1 ((SInfo.init.setPixel 0 0).setPixelSample 0).x
        ((SInfo.init.setPixel 0 0).setPixelSample 0).y 0 0 0)
      ((SInfo.init.setPixel 0 0).setPixelSample 0) HitInfo.init 0 ⟨0, 2⟩ =
      Except.ok (Color.gray 0.5, HitInfo.init, (⟨0, 3⟩ : RNG)) := by
    rw [tracePath_escape_nohit envC1 _ _ _ 0 ⟨0, 2⟩ (by norm_num) rfl hsc]
    simp [escapeColor, envC1, envUnit, RNG.nextFloat, HitInfo.init]
  unfold workerRun workerGo
  rw [if_pos (by norm_num [envC1, envUnit] : (0:ℕ) < envC1.width * envC1.height)]
  unfold renderPixel
  dsimp only
  have e1 : RNG.nextFloat envC1 ⟨0, 0⟩ = (0, ⟨0, 1⟩) := rfl
  have e2 : RNG.nextFloat envC1 ⟨0, 1⟩ = (0, ⟨0, 2⟩) := rfl
  have ew : envC1.width = 1 := rfl
  have esm : envC1.sampleMax = 1 := rfl
  have esr : envC1.sRGB = false := rfl
  simp only [e1, e2, ew, esm, esr]
  norm_num
  unfold sampleLoop
  dsimp only
  unfold samplePixel
  dsimp only
  rw [htp]
  dsimp only
  rw [if_neg (by norm_num [HitInfo.init] : ¬(HitInfo.init.z < BIGFLOAT))]
  unfold sampleLoop
  dsimp only
  unfold workerGo
  have hc : (Color.black + Color.gray 0.5).divR 2 = ⟨1/4, 1/4, 1/4⟩ := by
    norm_num [Color.black, Color.gray, Color.divR]
  rw [hc, h24]

/-! ## C2: the worker RNG is seeded once per worker, not per pixel -/

/-- A renderable light whose sample generation always fails without
consuming RNG draws (as a spot light does for a point outside its
cone), keeping the C2 scene's draw sequence simple. -/
noncomputable def lightC2 : LightObj :=
  { id := 0
    isPhotonSource := true
    generateSample := fun _ r => (false, Vec3.zero, DInfo.void, r)
    getSampleInfo := fun _ _ => DInfo.void
    radiance := fun _ => Color.black }

/-- The C2 scene: 2×1 image, one sample per pixel, empty geometry,
σ_a = σ_s = 1/2 (σ_t = 1), an environment map that is white above the
z = 0 plane and black below, one renderable light, and an RNG stream
chosen so that pixel 1's path scatters and then escapes into the
environment along a direction determined by the draws it receives —
which depend on where in the worker's stream the pixel is processed. -/
noncomputable def envC2 : Env :=
  { envUnit with
    width := 2
    height := 1
    sig_a := 1/2
    sig_s := 1/2
    envMap := fun d => if 0 < d.z then Color.gray 1 else Color.black
    lightsRenderable := [lightC2]
    rngFloat := fun s c =>
      if s = 0 ∧ (c = 5 ∨ c = 7) then 3/4
      else if s = 1 ∧ c = 2 then 3/4
      else if s = 1 ∧ c = 4 then 1/4
      else 0 }

theorem envC2_sigT : Env.sigT envC2 = 1 := by norm_num [envC2, envUnit, Env.sigT]

/-- A zero draw always passes the scatter test in the C2 scene. -/
theorem envC2_scatters_zero : ∀ r : RNG, envC2.rngFloat r.seed r.ctr = 0 →
    scatters (freeFlight envC2.sigT (RNG.nextFloat envC2 r).1) BIGFLOAT = true := by
  intro r hr
  have : (RNG.nextFloat envC2 r).1 = 0 := hr
  rw [this]
  norm_num [scatters, freeFlight, envC2_sigT, BIGFLOAT, Real.log_one]

/-- The draw 3/4 passes the scatter test in the C2 scene. -/
theorem envC2_scatters_34 :
    scatters (freeFlight envC2.sigT (3/4 : ℝ)) BIGFLOAT = true := by
  have hlog : -Real.log (1 - 3/4 : ℝ) ≤ 3 := by
    rw [show (1 - 3/4 : ℝ) = 4⁻¹ by norm_num, Real.log_inv, neg_neg]
    exact le_trans (Real.log_le_sub_one_of_pos (by norm_num)) (by norm_num)
  unfold scatters freeFlight
  rw [if_neg (by rw [envC2_sigT]; norm_num)]
  rw [envC2_sigT]
  simp only [decide_eq_true_eq]
  rw [div_one]
  unfold BIGFLOAT
  nlinarith

theorem envC2_absorb_zero : absorbRoulette envC2 0 := by
  norm_num [absorbRoulette, envC2, envUnit, Env.sigT]

theorem envC2_no_absorb_34 : ¬absorbRoulette envC2 (3/4 : ℝ) := by
  norm_num [absorbRoulette, envC2, envUnit, Env.sigT]

/-- In the C2 scene, a bounce-1 path whose roll draw is zero is absorbed
and returns the environment color of its direction. -/
theorem envC2_bounce1 (rr : RNG) (hrr : envC2.rngFloat rr.seed rr.ctr = 0)
    (rayX : Ray) (sX : SInfo) (hX : HitInfo) :
    tracePath envC2 rayX sX hX 1 rr =
      Except.ok ((if 0 < rayX.dir.z then Color.gray 1 else Color.black),
        HitInfo.init, (⟨rr.seed, rr.ctr + 1⟩ : RNG)) := by
  rw [tracePath_absorb_nohit envC2 rayX sX hX 1 rr (by norm_num) rfl
    (envC2_scatters_zero rr hrr)
    (by
      show absorbRoulette envC2 (RNG.nextFloat envC2 rr).1
      have : (RNG.nextFloat envC2 rr).1 = 0 := hrr
      rw [this]
      exact envC2_absorb_zero)]
  simp [absorptionColor, envC2, envUnit, RNG.nextFloat, HitInfo.init]

/-- In the C2 scene the scatter combination with black NEE and a white
recursive sample is gray 1/4 (τ/pdf cancels to 1/σ_t = 1). -/
theorem envC2_mediumCombine_white : ∀ t : ℝ,
    mediumCombine envC2 t Color.black (Color.gray 1) = ⟨1/4, 1/4, 1/4⟩ := by
  intro t
  unfold mediumCombine
  rw [envC2_sigT]
  have he : Real.exp (-1 * t) ≠ 0 := Real.exp_ne_zero _
  rw [mul_one]
  dsimp only
  rw [div_self he]
  norm_num [Color.black, Color.gray, envC2, envUnit]

/-- In the C2 scene the scatter combination with black NEE and a black
recursive sample is black. -/
theorem envC2_mediumCombine_black : ∀ t : ℝ,
    mediumCombine envC2 t Color.black Color.black = ⟨0, 0, 0⟩ := by
  intro t
  unfold mediumCombine
  rw [envC2_sigT]
  have he : Real.exp (-1 * t) ≠ 0 := Real.exp_ne_zero _
  rw [mul_one]
  dsimp only
  rw [div_self he]
  norm_num [Color.black, envC2, envUnit]

/-- Pixel 1's path when its draws start at counter 5 of the seed-0
stream (worker started at pixel 0): cosθ = 2·(3/4)−1 > 0, the escape
direction points up, and the sample is gray 1/4. -/
theorem envC2_path_pixel1_workerA : ∀ (ray : Ray) (s : SInfo) (h : HitInfo),
    tracePath envC2 ray s h 0 ⟨0, 5⟩ =
      Except.ok ((⟨1/4, 1/4, 1/4⟩ : Color), HitInfo.init, (⟨0, 10⟩ : RNG)) := by
  intro ray s h
  rw [tracePath_scatter_nohit envC2 ray s h 0 ⟨0, 5⟩ lightC2 ⟨0, 7⟩ (by norm_num) rfl
    envC2_scatters_34 envC2_no_absorb_34 rfl rfl]
  have e7 : RNG.nextFloat envC2 ⟨0, 7⟩ = (3/4, ⟨0, 8⟩) := rfl
  have e8 : RNG.nextFloat envC2 ⟨0, 8⟩ = (0, ⟨0, 9⟩) := rfl
  simp only [e7, e8]
  rw [envC2_bounce1 ⟨0, 9⟩ rfl]
  dsimp only
  have hz : (0:ℝ) < (phaseDir (3/4) 0).z := by unfold phaseDir; norm_num
  rw [if_pos hz, envC2_mediumCombine_white]

/-- Pixel 1's path when its draws start at counter 2 of the seed-1
stream (worker started at pixel 1): cosθ = 2·(1/4)−1 < 0, the escape
direction points down, and the sample is black. -/
theorem envC2_path_pixel1_workerB : ∀ (ray : Ray) (s : SInfo) (h : HitInfo),
    tracePath envC2 ray s h 0 ⟨1, 2⟩ =
      Except.ok ((⟨0, 0, 0⟩ : Color), HitInfo.init, (⟨1, 7⟩ : RNG)) := by
  intro ray s h
  rw [tracePath_scatter_nohit envC2 ray s h 0 ⟨1, 2⟩ lightC2 ⟨1, 4⟩ (by norm_num) rfl
    envC2_scatters_34 envC2_no_absorb_34 rfl rfl]
  have e4 : RNG.nextFloat envC2 ⟨1, 4⟩ = (1/4, ⟨1, 5⟩) := rfl
  have e5 : RNG.nextFloat envC2 ⟨1, 5⟩ = (0, ⟨1, 6⟩) := rfl
  simp only [e4, e5]
  rw [envC2_bounce1 ⟨1, 6⟩ rfl]
  dsimp only
  have hz : ¬((0:ℝ) < (phaseDir (1/4) 0).z) := by unfold phaseDir; norm_num
  rw [if_neg hz, envC2_mediumCombine_black]

/-- Pixel 0's path (draws from counter 2 of the seed-0 stream): the roll
is 0, so the path is absorbed at bounce 0 and returns the background. -/
theorem envC2_path_pixel0 : ∀ (ray : Ray) (s : SInfo) (h : HitInfo),
    tracePath envC2 ray s h 0 ⟨0, 2⟩ =
      Except.ok (Color.gray 0.5, HitInfo.init, (⟨0, 3⟩ : RNG)) := by
  intro ray s h
  rw [tracePath_absorb_nohit envC2 ray s h 0 ⟨0, 2⟩ (by norm_num) rfl
    (envC2_scatters_zero ⟨0, 2⟩ rfl)
    (show absorbRoulette envC2 (RNG.nextFloat envC2 ⟨0, 2⟩).1 from envC2_absorb_zero)]
  simp [absorptionColor, envC2, envUnit, RNG.nextFloat, HitInfo.init]

theorem envC2_renderPixel0_workerA :
    renderPixel envC2 SInfo.init HitInfo.init ⟨0, 0⟩ 0 =
      Except.ok (⟨⟨64, 64, 64⟩, BIGFLOAT, 1⟩, HitInfo.init,
        (SInfo.init.setPixel 0 0).setPixelSample 0, (⟨0, 3⟩ : RNG)) := by
  unfold renderPixel
  dsimp only
  have e0 : RNG.nextFloat envC2 ⟨0, 0⟩ = (0, ⟨0, 1⟩) := rfl
  have e1 : RNG.nextFloat envC2 ⟨0, 1⟩ = (0, ⟨0, 2⟩) := rfl
  have ew : envC2.width = 2 := rfl
  have esm : envC2.sampleMax = 1 := rfl
  have esr : envC2.sRGB = false := rfl
  simp only [e0, e1, ew, esm, esr]
  norm_num
  unfold sampleLoop
  dsimp only
  unfold samplePixel
  dsimp only
  rw [envC2_path_pixel0]
  dsimp only
  rw [if_neg (by norm_num [HitInfo.init] : ¬(HitInfo.init.z < BIGFLOAT))]
  unfold sampleLoop
  dsimp only
  have hc : (Color.black + Color.gray 0.5).divR 2 = ⟨1/4, 1/4, 1/4⟩ := by
    norm_num [Color.black, Color.gray, Color.divR]
  rw [hc]
  have hfloor : ⌊((1:ℝ)/4 * 255 + 0.5)⌋ = (64:ℤ) := Int.floor_eq_iff.mpr (by norm_num)
  have h24 : (⟨1/4, 1/4, 1/4⟩ : Color).toColor24 = ⟨64, 64, 64⟩ := by
    unfold Color.toColor24 toByte truncInt clampInt
    rw [if_pos (by norm_num : (0:ℝ) ≤ 1/4 * 255 + 0.5), hfloor]
    norm_num
    rfl
  rw [h24]

theorem envC2_renderPixel1_workerA :
    renderPixel envC2 ((SInfo.init.setPixel 0 0).setPixelSample 0) HitInfo.init
        ⟨0, 3⟩ 1 =
      Except.ok (⟨⟨32, 32, 32⟩, BIGFLOAT, 1⟩, HitInfo.init,
        ((((SInfo.init.setPixel 0 0).setPixelSample 0).setPixel 1 0).setPixelSample 0),
        (⟨0, 10⟩ : RNG)) := by
  unfold renderPixel
  dsimp only
  have e3 : RNG.nextFloat envC2 ⟨0, 3⟩ = (0, ⟨0, 4⟩) := rfl
  have e4 : RNG.nextFloat envC2 ⟨0, 4⟩ = (0, ⟨0, 5⟩) := rfl
  have ew : envC2.width = 2 := rfl
  have esm : envC2.sampleMax = 1 := rfl
  have esr : envC2.sRGB = false := rfl
  simp only [e3, e4, ew, esm, esr]
  norm_num
  unfold sampleLoop
  dsimp only
  unfold samplePixel
  dsimp only
  rw [envC2_path_pixel1_workerA]
  dsimp only
  rw [if_neg (by norm_num [HitInfo.init] : ¬(HitInfo.init.z < BIGFLOAT))]
  unfold sampleLoop
  dsimp only
  have hc : (Color.black + (⟨1/4, 1/4, 1/4⟩ : Color)).divR 2 = ⟨1/8, 1/8, 1/8⟩ := by
    norm_num [Color.black, Color.divR]
  rw [hc]
  have hfloor : ⌊((1:ℝ)/8 * 255 + 0.5)⌋ = (32:ℤ) := Int.floor_eq_iff.mpr (by norm_num)
  have h32 : (⟨1/8, 1/8, 1/8⟩ : Color).toColor24 = ⟨32, 32, 32⟩ := by
    unfold Color.toColor24 toByte truncInt clampInt
    rw [if_pos (by norm_num : (0:ℝ) ≤ 1/8 * 255 + 0.5), hfloor]
    norm_num
    rfl
  rw [h32]

theorem envC2_renderPixel1_workerB :
    renderPixel envC2 SInfo.init HitInfo.init ⟨1, 0⟩ 1 =
      Except.ok (⟨⟨0, 0, 0⟩, BIGFLOAT, 1⟩, HitInfo.init,
        (SInfo.init.setPixel 1 0).setPixelSample 0, (⟨1, 7⟩ : RNG)) := by
  unfold renderPixel
  dsimp only
  have e0 : RNG.nextFloat envC2 ⟨1, 0⟩ = (0, ⟨1, 1⟩) := rfl
  have e1 : RNG.nextFloat envC2 ⟨1, 1⟩ = (0, ⟨1, 2⟩) := rfl
  have ew : envC2.width = 2 := rfl
  have esm : envC2.sampleMax = 1 := rfl
  have esr : envC2.sRGB = false := rfl
  simp only [e0, e1, ew, esm, esr]
  norm_num
  unfold sampleLoop
  dsimp only
  unfold samplePixel
  dsimp only
  rw [envC2_path_pixel1_workerB]
  dsimp only
  rw [if_neg (by norm_num [HitInfo.init] : ¬(HitInfo.init.z < BIGFLOAT))]
  unfold sampleLoop
  dsimp only
  have hc : (Color.black + (⟨0, 0, 0⟩ : Color)).divR 2 = ⟨0, 0, 0⟩ := by
    norm_num [Color.black, Color.divR]
  rw [hc]
  have hfloor : ⌊((0:ℝ) * 255 + 0.5)⌋ = (0:ℤ) := Int.floor_eq_iff.mpr (by norm_num)
  have h0 : (⟨0, 0, 0⟩ : Color).toColor24 = ⟨0, 0, 0⟩ := by
    unfold Color.toColor24 toByte truncInt clampInt
    rw [if_pos (by norm_num : (0:ℝ) ≤ 0 * 255 + 0.5), hfloor]
    norm_num
  rw [h0]

/-- C2 evaluation at the failing input: on the same 2×1 scene, a single
worker that picks up pixels 0 and 1 (its RNG seeded once, from its first
index 0) writes (32,32,32) at pixel 1, while a worker that starts at
pixel 1 (RNG seeded 1) writes (0,0,0) there — pixel 0 agrees in both
runs.  Pixel outputs therefore depend on the pixel→worker assignment,
not on the pixel index alone, and N = 1 vs N = 2 workers are not
byte-identical, because RenderPixels constructs `RNG rng(index)` once
per worker before its loop instead of once per pixel. -/
theorem C2_per_worker_seeding_not_thread_invariant :
    workerRun envC2 [0, 1] =
      [(0, Except.ok ⟨⟨64, 64, 64⟩, BIGFLOAT, 1⟩),
       (1, Except.ok ⟨⟨32, 32, 32⟩, BIGFLOAT, 1⟩)] ∧
    workerRun envC2 [0] = [(0, Except.ok ⟨⟨64, 64, 64⟩, BIGFLOAT, 1⟩)] ∧
    workerRun envC2 [1] = [(1, Except.ok ⟨⟨0, 0, 0⟩, BIGFLOAT, 1⟩)] ∧
    ((⟨32, 32, 32⟩ : Color24) ≠ ⟨0, 0, 0⟩) := by
  refine ⟨?_, ?_, ?_, by decide⟩
  · unfold workerRun workerGo
    rw [if_pos (by norm_num [envC2, envUnit] : (0:ℕ) < envC2.width * envC2.height)]
    rw [envC2_renderPixel0_workerA]
    dsimp only
    unfold workerGo
    rw [if_pos (by norm_num [envC2, envUnit] : (1:ℕ) < envC2.width * envC2.height)]
    rw [envC2_renderPixel1_workerA]
    dsimp only
    unfold workerGo
    rfl
  · unfold workerRun workerGo
    rw [if_pos (by norm_num [envC2, envUnit] : (0:ℕ) < envC2.width * envC2.height)]
    rw [envC2_renderPixel0_workerA]
    dsimp only
    unfold workerGo
    rfl
  · unfold workerRun workerGo
    rw [if_pos (by norm_num [envC2, envUnit] : (1:ℕ) < envC2.width * envC2.height)]
    rw [envC2_renderPixel1_workerB]
    dsimp only
    unfold workerGo
    rfl

end PathTracer
